import Mathlib

/-!
# iscsi-provisioner: the reconciliation controller of `controller.go`

A shallow embedding of the decision predicates, the provisioning and deletion
operations and the bookkeeping helpers of `controller.go`, with the external
collaborators (cluster-state store, class cache, file system, backend script,
event recorder) kept in an explicit `World` that every operation threads
through.  Calls that leave the controller are appended to `World.log`, so
that statements about "which calls were made, in which order" are statements
about that list.  `glog` output is not modelled.
-/

namespace Iscsi

/-! ## Constants of `controller.go` -/

/-- Storage-class annotation key, `annClass`. -/
def annClass : String := "volume.beta.kubernetes.io/storage-class"

/-- Provisioned-by annotation key, `annDynamicallyProvisioned`. -/
def annDynamicallyProvisioned : String := "pv.kubernetes.io/provisioned-by"

/-- Number of retries when a PV object is created for a provisioned volume. -/
def createProvisionedPVRetryCount : Int := 5

/-- Phase constants of `v1.PersistentVolumePhase` (a Go string type). -/
def VolumeReleased : String := "Released"

/-- Phase constant `v1.VolumeFailed`. -/
def VolumeFailed : String := "Failed"

/-- Event type `v1.EventTypeWarning`. -/
def EventTypeWarning : String := "Warning"

/-- Reclaim policy `v1.PersistentVolumeReclaimDelete`. -/
def PersistentVolumeReclaimDelete : String := "Delete"

/-- Resource name `v1.ResourceStorage`. -/
def ResourceStorage : String := "storage"

/-! ## Go maps with string keys -/

/-- A Go `map[string]T`: `none` is the nil map, `some l` an allocated map whose
entries are the pairs of `l` (the first pair with a key is the entry). -/
abbrev GoMap (α : Type) := Option (List (String × α))

/-- The comma-ok lookup `v, found := m[k]`; a nil map has no entry. -/
def GoMap.get {α : Type} (m : GoMap α) (k : String) : Option α :=
  match m with
  | none => none
  | some l => (l.find? (fun p => p.1 == k)).map Prod.snd

/-- The plain index `m[k]` of a map of strings: the zero value when there is no entry. -/
def GoMap.index (m : GoMap String) (k : String) : String :=
  (m.get k).getD ""

/-- The assignment `m[k] = v` on an allocated map. -/
def GoMap.set {α : Type} (l : List (String × α)) (k : String) (v : α) : List (String × α) :=
  (k, v) :: l.filter (fun p => !(p.1 == k))

/-! ## Data model (the fields of the Kubernetes objects that the controller reads or writes) -/

/-- The `v1.ObjectMeta` fields in use. -/
structure ObjectMeta where
  Name : String := ""
  Namespace : String := ""
  UID : String := ""
  Labels : GoMap String := none
  Annotations : GoMap String := none
deriving DecidableEq, Repr

/-- The `v1.ObjectReference` returned by `v1.GetReference`. -/
structure ObjectReference where
  Kind : String := ""
  Namespace : String := ""
  Name : String := ""
  UID : String := ""
  APIVersion : String := ""
  ResourceVersion : String := ""
deriving DecidableEq, Repr

/-- The `v1.PersistentVolumeClaimSpec` fields in use; `Requests` is
`Spec.Resources.Requests`, with quantities as numbers of bytes. -/
structure PersistentVolumeClaimSpec where
  AccessModes : List String := []
  Requests : GoMap Nat := none
  VolumeName : String := ""
deriving DecidableEq, Repr

/-- A claim, `v1.PersistentVolumeClaim`. -/
structure PersistentVolumeClaim where
  ObjectMeta : ObjectMeta := {}
  Spec : PersistentVolumeClaimSpec := {}
deriving DecidableEq, Repr

/-- The `v1.ISCSIVolumeSource` of a provisioned volume. -/
structure ISCSIVolumeSource where
  TargetPortal : String
  IQN : String
  Lun : Nat
  FSType : String
  ReadOnly : Bool
deriving DecidableEq, Repr

/-- The `v1.PersistentVolumeSpec` fields in use. -/
structure PersistentVolumeSpec where
  Capacity : GoMap Nat := none
  AccessModes : List String := []
  PersistentVolumeReclaimPolicy : String := ""
  ClaimRef : Option ObjectReference := none
  ISCSI : Option ISCSIVolumeSource := none
deriving DecidableEq, Repr

/-- The `v1.PersistentVolumeStatus` field in use. -/
structure PersistentVolumeStatus where
  Phase : String := ""
deriving DecidableEq, Repr

/-- A volume record, `v1.PersistentVolume`. -/
structure PersistentVolume where
  ObjectMeta : ObjectMeta := {}
  Spec : PersistentVolumeSpec := {}
  Status : PersistentVolumeStatus := {}
deriving DecidableEq, Repr

/-- A class, `v1beta1.StorageClass`. -/
structure StorageClass where
  Name : String := ""
  Provisioner : String := ""
  Parameters : GoMap String := none
deriving DecidableEq, Repr

/-- An `interface{}` value held by the class cache: a `*v1beta1.StorageClass`
or a value of some other dynamic type. -/
inductive CacheObj where
  | storageClass (sc : StorageClass)
  | other (description : String)
deriving DecidableEq, Repr

/-- The triple `(item, exists, err)` returned by `cache.Store.GetByKey`. -/
structure GetByKeyResult where
  item : Option CacheObj := none
  found : Bool := false
  err : Option String := none
deriving DecidableEq, Repr

/-- What `os.Stat` answers for a path, as far as `os.IsNotExist` tells apart. -/
inductive StatResult where
  | present
  | notExist
  | otherError (msg : String)
deriving DecidableEq, Repr

/-- One run of `sh <Scriptpath>`: the bytes collected from standard output and
the error returned by `cmd.Run()`. -/
structure ScriptRun where
  stdout : String
  err : Option String
deriving DecidableEq, Repr

/-- The struct `ProvisionerConfig` of `main.go`. -/
structure ProvisionerConfig where
  Opmode : String := ""
  Scriptpath : String := ""
  Resturl : String := ""
  Restuser : String := ""
  Restkey : String := ""
deriving DecidableEq, Repr

/-- The struct `VolumeOptions` of `controller.go`. -/
structure VolumeOptions where
  Capacity : Nat
  AccessModes : List String
  PersistentVolumeReclaimPolicy : String
  PVName : String
  Parameters : GoMap String
deriving DecidableEq, Repr

/-- The object an event is recorded on. -/
inductive Subject where
  | claim (c : PersistentVolumeClaim)
  | volume (v : PersistentVolume)
deriving DecidableEq, Repr

/-- The message of an event: either the format string and the arguments that
the source hands to `fmt.Sprintf`, or a string used as it is. -/
inductive Message where
  | sprintf (format : String) (args : List String)
  | text (s : String)
deriving DecidableEq, Repr

/-- A call that leaves the controller.  `event` carries the arguments of
`eventRecorder.Event`; `dealloc` is a call of the controller's own `delete`
method (the backend deallocation) with the error it returned; `sleep` is
`time.Sleep(ctrl.createProvisionedPVInterval)`. -/
inductive Call where
  | storeGet (name : String)
  | storeCreate (v : PersistentVolume)
  | storeDelete (name : String)
  | exec (scriptpath : String)
  | dealloc (v : PersistentVolume) (result : Option String)
  | event (subject : Subject) (eventtype reason : String) (message : Message)
  | sleep
deriving DecidableEq, Repr

/-- The controller fields that the operations read (`iscsiController`). -/
structure iscsiController where
  provisionerName : String
  provisionerConfig : ProvisionerConfig
  createProvisionedPVRetryCount : Int
deriving DecidableEq, Repr

/-- The constructor `newiscsiController`, as far as the fields above go. -/
def newiscsiController (provisionerName : String) (provisionerConfig : ProvisionerConfig) :
    iscsiController :=
  { provisionerName := provisionerName
    provisionerConfig := provisionerConfig
    createProvisionedPVRetryCount := createProvisionedPVRetryCount }

/-- The collaborators outside the controller.

* `classes` is `ctrl.classes.GetByKey`;
* `stat` is `os.Stat`;
* `getReference` is `v1.GetReference`;
* `volumes` are the volume records of the cluster-state store; `Get` finds a
  record by name, `Create` adds one unless a record of that name exists,
  `Delete` removes the record of that name;
* `getFaults`, `createFaults`, `deleteFaults` script errors of the coming
  `Get`, `Create`, `Delete` calls: the head answers the next call, `some e`
  makes it fail with `e` whatever the records are, `none` (or an exhausted
  list) lets the store answer from its records;
* `scriptRuns` are the coming runs of the backend script, the head first; when
  none is left the run fails with empty output;
* `log` lists the calls made so far, oldest first. -/
structure World where
  classes : String → GetByKeyResult
  stat : String → StatResult
  getReference : PersistentVolumeClaim → Except String ObjectReference
  volumes : List PersistentVolume := []
  getFaults : List (Option String) := []
  createFaults : List (Option String) := []
  deleteFaults : List (Option String) := []
  scriptRuns : List ScriptRun := []
  log : List Call := []

/-- How an operation ended: the world it left, and the message of the Go
runtime panic that stopped it, if one did. -/
structure Outcome where
  world : World
  panic : Option String := none

/-- The world with one more call in its log. -/
def World.logCall (w : World) (c : Call) : World :=
  { w with log := w.log ++ [c] }

/-! ## Bookkeeping helpers -/

/-- The helper `hasAnnotation(obj, ann)`. -/
def hasAnnotation (obj : ObjectMeta) (ann : String) : Bool :=
  (obj.Annotations.get ann).isSome

/-- The helper `setAnnotation(obj, ann, value)`: allocates the map when it is nil. -/
def setAnnotation (obj : ObjectMeta) (ann : String) (value : String) : ObjectMeta :=
  let m : List (String × String) :=
    match obj.Annotations with
    | none => []
    | some l => l
  { obj with Annotations := some (GoMap.set m ann value) }

/-- The helper `getClaimClass(claim)`. -/
def getClaimClass (claim : PersistentVolumeClaim) : String :=
  match claim.ObjectMeta.Annotations.get annClass with
  | some cls => cls
  | none => ""

/-- The method `getProvisionedVolumeNameForClaim(claim)`. -/
def getProvisionedVolumeNameForClaim (_ctrl : iscsiController) (claim : PersistentVolumeClaim) :
    String :=
  "pvc-" ++ claim.ObjectMeta.UID

/-- The helper `claimToClaimKey(claim)`, `fmt.Sprintf("%s/%s", Namespace, Name)`. -/
def claimToClaimKey (claim : PersistentVolumeClaim) : String :=
  claim.ObjectMeta.Namespace ++ "/" ++ claim.ObjectMeta.Name

/-! ## Decision predicates -/

/-- The predicate `shouldProvision(claim)`. -/
def shouldProvision (ctrl : iscsiController) (w : World) (claim : PersistentVolumeClaim) : Bool :=
  if claim.Spec.VolumeName ≠ "" then false
  else
    let claimClass := getClaimClass claim
    let r := w.classes claimClass
    if r.err.isSome then false
    else if !r.found then false
    else
      match r.item with
      | some (CacheObj.storageClass cls) =>
        if cls.Provisioner ≠ ctrl.provisionerName then false else true
      | _ => false

/-- The predicate `shouldDelete(volume)`. -/
def shouldDelete (ctrl : iscsiController) (w : World) (volume : PersistentVolume) : Bool :=
  if volume.Status.Phase ≠ VolumeReleased ∧ volume.Status.Phase ≠ VolumeFailed then false
  else if ( hasAnnotation volume.ObjectMeta annDynamicallyProvisioned) ∧
      volume.ObjectMeta.Annotations.index annDynamicallyProvisioned ≠ ctrl.provisionerName
    then false
  else
    let path := "iscsi-volume-" ++ volume.ObjectMeta.Name
    if w.stat path = StatResult.notExist then false else true

/-! ## Operation keys -/

/-- The key `opName` built by `addClaim`,
`fmt.Sprintf("provision-%s[%s]", claimToClaimKey(claim), string(claim.UID))`. -/
def addClaim.opName (claim : PersistentVolumeClaim) : String :=
  "provision-" ++ claimToClaimKey claim ++ "[" ++ claim.ObjectMeta.UID ++ "]"

/-- The key `opName` built by `updateVolume`,
`fmt.Sprintf("delete-%s[%s]", volume.Name, string(volume.UID))`. -/
def updateVolume.opName (volume : PersistentVolume) : String :=
  "delete-" ++ volume.ObjectMeta.Name ++ "[" ++ volume.ObjectMeta.UID ++ "]"

/-! ## The cluster-state store and the backend script -/

/-- The fault scripted for the next call, if any. -/
def nextFault (faults : List (Option String)) : Option String :=
  match faults with
  | [] => none
  | f :: _ => f

/-- The call `ctrl.client.Core().PersistentVolumes().Get(name)`.  The typed
client returns a non-nil volume exactly when it returns no error. -/
def PersistentVolumes.Get (w : World) (name : String) : World × Except String PersistentVolume :=
  let w1 := { w with getFaults := w.getFaults.tail, log := w.log ++ [Call.storeGet name] }
  match nextFault w.getFaults with
  | some e => (w1, Except.error e)
  | none =>
    match w.volumes.find? (fun v => v.ObjectMeta.Name == name) with
    | some v => (w1, Except.ok v)
    | none => (w1, Except.error "not found")

/-- The call `ctrl.client.Core().PersistentVolumes().Create(volume)`, reduced to
the error it returns. -/
def PersistentVolumes.Create (w : World) (volume : PersistentVolume) : World × Option String :=
  let w1 := { w with createFaults := w.createFaults.tail, log := w.log ++ [Call.storeCreate volume] }
  match nextFault w.createFaults with
  | some e => (w1, some e)
  | none =>
    if w.volumes.any (fun v => v.ObjectMeta.Name == volume.ObjectMeta.Name) then
      (w1, some "already exists")
    else
      ({ w1 with volumes := w.volumes ++ [volume] }, none)

/-- The call `ctrl.client.Core().PersistentVolumes().Delete(name, nil)`. -/
def PersistentVolumes.Delete (w : World) (name : String) : World × Option String :=
  let w1 := { w with deleteFaults := w.deleteFaults.tail, log := w.log ++ [Call.storeDelete name] }
  match nextFault w.deleteFaults with
  | some e => (w1, some e)
  | none =>
    if w.volumes.any (fun v => v.ObjectMeta.Name == name) then
      ({ w1 with volumes := w.volumes.filter (fun v => !(v.ObjectMeta.Name == name)) }, none)
    else
      (w1, some "not found")

/-- The run `exec.Command("sh", scriptpath)` with its standard output collected. -/
def runScript (w : World) (scriptpath : String) : World × ScriptRun :=
  let w1 := { w with scriptRuns := w.scriptRuns.tail, log := w.log ++ [Call.exec scriptpath] }
  match w.scriptRuns with
  | [] => (w1, { stdout := "", err := some "exit status 127" })
  | r :: _ => (w1, r)

/-- The white space of `unicode.IsSpace`. -/
def isSpace (c : Char) : Bool :=
  let n := c.toNat
  n = 9 || n = 10 || n = 11 || n = 12 || n = 13 || n = 32 || n = 0x85 || n = 0xA0 ||
  n = 0x1680 || (0x2000 ≤ n && n ≤ 0x200a) || n = 0x2028 || n = 0x2029 || n = 0x202f ||
  n = 0x205f || n = 0x3000

/-- The scan of `strings.Fields`: `cur` holds the characters of the field being
read, last one first. -/
def fieldsAux : List Char → List Char → List String
  | [], cur => if cur.isEmpty then [] else [String.mk cur.reverse]
  | c :: cs, cur =>
    if isSpace c then
      if cur.isEmpty then fieldsAux cs [] else String.mk cur.reverse :: fieldsAux cs []
    else fieldsAux cs (c :: cur)

/-- The library function `strings.Fields`: the maximal runs of characters that
are not white space. -/
def fields (s : String) : List String :=
  fieldsAux s.data []

/-- The result of a Go call that may end in a runtime panic. -/
inductive Go (α : Type) where
  | ret (a : α)
  | panic (msg : String)
deriving DecidableEq, Repr

/-! ## Backend allocation and deallocation -/

/-- The method `createVolume(PVName)`: the triple `(server, path, err)` it
returns, or the panic of an index out of range. -/
def createVolume (ctrl : iscsiController) (_PVName : String) (w : World) :
    World × Go (String × String × Option String) :=
  if ctrl.provisionerConfig.Opmode = "script" then
    match runScript w ctrl.provisionerConfig.Scriptpath with
    | (w1, run) =>
      let result := fields run.stdout
      match result with
      | [] => (w1, Go.panic "index out of range [0] with length 0")
      | server :: rest =>
        match rest with
        | [] => (w1, Go.panic "index out of range [1] with length 1")
        | path :: _ => (w1, Go.ret (server, path, none))
  else
    (w, Go.ret ("", "", none))

/-- The volume that `provision(options)` builds from the server and path that
`createVolume` returned. -/
def provisionedVolume (options : VolumeOptions) (server path : String) : PersistentVolume :=
  { ObjectMeta :=
      { Name := options.PVName
        Labels := some []
        Annotations := some [("kubernetes.io/createdby", "iscsi-dynamic-provisioner")] }
    Spec :=
      { PersistentVolumeReclaimPolicy := options.PersistentVolumeReclaimPolicy
        AccessModes := options.AccessModes
        Capacity := some [(ResourceStorage, options.Capacity)]
        ISCSI := some
          { TargetPortal := server, IQN := path, Lun := 0, FSType := "ext3", ReadOnly := false } } }

/-- The method `provision(options)`: the pair `(pv, err)` it returns, as an
`Except`. -/
def provision (ctrl : iscsiController) (options : VolumeOptions) (w : World) :
    World × Go (Except String PersistentVolume) :=
  match createVolume ctrl options.PVName w with
  | (w1, Go.panic msg) => (w1, Go.panic msg)
  | (w1, Go.ret (_, _, some err)) => (w1, Go.ret (Except.error err))
  | (w1, Go.ret (server, path, none)) => (w1, Go.ret (Except.ok (provisionedVolume options server path)))

/-- The method `delete(volume)`, the backend deallocation: it returns nil. -/
def delete (_ctrl : iscsiController) (volume : PersistentVolume) (w : World) :
    World × Option String :=
  (w.logCall (Call.dealloc volume none), none)

/-! ## The provisioning operation -/

/-- The loop of `provisionClaimOperation` that saves the volume: `n` is the
number of iterations left, the last argument the value of `err` on entry; the
result carries the value of `err` after the loop. -/
def createLoop (volume : PersistentVolume) : Nat → World → Option String → World × Option String
  | 0, w, err => (w, err)
  | n + 1, w, _ =>
    match PersistentVolumes.Create w volume with
    | (w1, none) => (w1, none)
    | (w1, some e) => createLoop volume n (w1.logCall Call.sleep) (some e)

/-- The loop of `provisionClaimOperation` that deletes the storage asset after
the save failed. -/
def deleteLoop (ctrl : iscsiController) (volume : PersistentVolume) :
    Nat → World → Option String → World × Option String
  | 0, w, err => (w, err)
  | n + 1, w, _ =>
    match delete ctrl volume w with
    | (w1, none) => (w1, none)
    | (w1, some e) => deleteLoop ctrl volume n (w1.logCall Call.sleep) (some e)

/-- The world after `ctrl.eventRecorder.Event(subject, eventtype, reason, message)`. -/
def recordEvent (w : World) (subject : Subject) (eventtype reason : String) (message : Message) :
    World :=
  w.logCall (Call.event subject eventtype reason message)

/-- Lines 329 to 332 of `provisionClaimOperation`: the provisioned volume with
`Spec.ClaimRef` set and the provisioned-by and storage-class annotations set. -/
def annotateVolume (ctrl : iscsiController) (claimClass : String) (claimRef : ObjectReference)
    (provisioned : PersistentVolume) : PersistentVolume :=
  let withRef : PersistentVolume :=
    { provisioned with Spec := { provisioned.Spec with ClaimRef := some claimRef } }
  let withOwner : PersistentVolume :=
    { withRef with ObjectMeta :=
        setAnnotation withRef.ObjectMeta annDynamicallyProvisioned ctrl.provisionerName }
  { withOwner with ObjectMeta := setAnnotation withOwner.ObjectMeta annClass claimClass }

/-- Lines 334 to 377 of `provisionClaimOperation`: the volume is saved in up to
`createProvisionedPVRetryCount` attempts; when `err` is not nil after the loop,
an event is recorded and the storage asset is deleted in up to as many
attempts, with a second event when `err` is still not nil. -/
def saveVolume (ctrl : iscsiController) (claim : PersistentVolumeClaim) (volume : PersistentVolume)
    (w : World) : Outcome :=
  match createLoop volume ctrl.createProvisionedPVRetryCount.toNat w none with
  | (w3, none) => { world := w3 }
  | (w3, some err) =>
    let w4 := recordEvent w3 (Subject.claim claim) EventTypeWarning "ProvisioningFailed"
      (Message.sprintf
        "Error creating provisioned PV object for claim %s: %v. Deleting the volume."
        [claimToClaimKey claim, err])
    match deleteLoop ctrl volume ctrl.createProvisionedPVRetryCount.toNat w4 (some err) with
    | (w5, none) => { world := w5 }
    | (w5, some err2) =>
      { world := recordEvent w5 (Subject.claim claim) EventTypeWarning
          "ProvisioningCleanupFailed"
          (Message.sprintf
            "Error cleaning provisioned volume for claim %s: %v. Please delete manually."
            [claimToClaimKey claim, err2]) }

/-- The `VolumeOptions` that `provisionClaimOperation` hands to `provision`. -/
def volumeOptions (claim : PersistentVolumeClaim) (pvName : String) (storageClass : StorageClass) :
    VolumeOptions :=
  { Capacity := (claim.Spec.Requests.get ResourceStorage).getD 0
    AccessModes := claim.Spec.AccessModes
    PersistentVolumeReclaimPolicy := PersistentVolumeReclaimDelete
    PVName := pvName
    Parameters := storageClass.Parameters }

/-- The method `provisionClaimOperation(claim)`. -/
def provisionClaimOperation (ctrl : iscsiController) (claim : PersistentVolumeClaim) (w : World) :
    Outcome :=
  let claimClass := getClaimClass claim
  let pvName := getProvisionedVolumeNameForClaim ctrl claim
  match PersistentVolumes.Get w pvName with
  | (w1, Except.ok _) => { world := w1 }
  | (w1, Except.error _) =>
    match w1.getReference claim with
    | Except.error _ => { world := w1 }
    | Except.ok claimRef =>
      let r := w1.classes claimClass
      if r.err.isSome then { world := w1 }
      else if !r.found then { world := w1 }
      else
        match r.item with
        | some (CacheObj.storageClass storageClass) =>
          match provision ctrl (volumeOptions claim pvName storageClass) w1 with
          | (w2, Go.panic msg) => { world := w2, panic := some msg }
          | (w2, Go.ret (Except.error err)) =>
            { world := recordEvent w2 (Subject.claim claim) EventTypeWarning "ProvisioningFailed"
                (Message.sprintf "Failed to provision volume with StorageClass %q: %v"
                  [storageClass.Name, err]) }
          | (w2, Go.ret (Except.ok provisioned)) =>
            saveVolume ctrl claim (annotateVolume ctrl claimClass claimRef provisioned) w2
        | _ => { world := w1 }

/-! ## The deletion operation -/

/-- The method `deleteVolumeOperation(volume)`. -/
def deleteVolumeOperation (ctrl : iscsiController) (volume : PersistentVolume) (w : World) :
    Outcome :=
  match PersistentVolumes.Get w volume.ObjectMeta.Name with
  | (w1, Except.error _) => { world := w1 }
  | (w1, Except.ok newVolume) =>
    if !shouldDelete ctrl w1 newVolume then { world := w1 }
    else
      match delete ctrl volume w1 with
      | (w2, some err) =>
        { world := recordEvent w2 (Subject.volume volume) EventTypeWarning "VolumeFailedDelete"
            (Message.text err) }
      | (w2, none) =>
        match PersistentVolumes.Delete w2 volume.ObjectMeta.Name with
        | (w3, _) => { world := w3 }

/-- The calls that a run from world `w` to world `w1` added to the log. -/
def newCalls (w w1 : World) : List Call :=
  w1.log.drop w.log.length

/-! ## Classifying the calls of a log -/

/-- Whether a call is a `Create` on the store. -/
def Call.isCreate : Call → Bool
  | Call.storeCreate _ => true
  | _ => false

/-- Whether a call is a `Delete` on the store. -/
def Call.isStoreDelete : Call → Bool
  | Call.storeDelete _ => true
  | _ => false

/-- Whether a call is a run of the backend script (the backend allocation). -/
def Call.isExec : Call → Bool
  | Call.exec _ => true
  | _ => false

/-- Whether a call is a backend deallocation. -/
def Call.isDealloc : Call → Bool
  | Call.dealloc _ _ => true
  | _ => false

/-- Whether a call is a backend deallocation that returned an error. -/
def Call.isFailedDealloc : Call → Bool
  | Call.dealloc _ (some _) => true
  | _ => false

/-- Whether a call records an event. -/
def Call.isEvent : Call → Bool
  | Call.event _ _ _ _ => true
  | _ => false

/-- Whether a call records a warning event with the given reason on the given claim. -/
def Call.isWarningOn (claim : PersistentVolumeClaim) (reason : String) : Call → Bool
  | Call.event s t r _ => s == Subject.claim claim && t == EventTypeWarning && r == reason
  | _ => false

/-! ## Example inputs -/

/-- A controller as `main` builds it with the flags `-provisioner-name iscsi
-execmode script -scriptpath ./prov.sh`. -/
def exampleController : iscsiController :=
  newiscsiController "iscsi" { Opmode := "script", Scriptpath := "./prov.sh" }

/-- The claim `ns/pvc1` with UID `u1` and class `fast`. -/
def exampleClaim : PersistentVolumeClaim :=
  { ObjectMeta :=
      { Name := "pvc1", Namespace := "ns", UID := "u1", Annotations := some [(annClass, "fast")] } }

/-- A class cache that holds the class `fast` of provisioner `iscsi` and the
class `slow` of another provisioner. -/
def exampleClasses (key : String) : GetByKeyResult :=
  if key = "fast" then
    { item := some (CacheObj.storageClass { Name := "fast", Provisioner := "iscsi" }), found := true }
  else if key = "slow" then
    { item := some (CacheObj.storageClass { Name := "slow", Provisioner := "other" }), found := true }
  else {}

/-- The reference that `v1.GetReference` builds for a claim with a self link. -/
def exampleReference (claim : PersistentVolumeClaim) : Except String ObjectReference :=
  Except.ok
    { Kind := "PersistentVolumeClaim", Namespace := claim.ObjectMeta.Namespace,
      Name := claim.ObjectMeta.Name, UID := claim.ObjectMeta.UID, APIVersion := "v1" }

/-- A world with an empty store, no backend artifact on disk, and the given
coming runs of the script. -/
def exampleWorld (runs : List ScriptRun) : World :=
  { classes := exampleClasses
    stat := fun _ => StatResult.notExist
    getReference := exampleReference
    scriptRuns := runs }

/-- The calls that `createVolume` makes: one run of the script in script mode,
none otherwise. -/
def execCalls (ctrl : iscsiController) : List Call :=
  if ctrl.provisionerConfig.Opmode = "script" then [Call.exec ctrl.provisionerConfig.Scriptpath]
  else []

/-- A released volume named `pvc-u1` that the example controller provisioned. -/
def exampleVolume : PersistentVolume :=
  { ObjectMeta :=
      { Name := "pvc-u1", UID := "v1", Annotations := some [(annDynamicallyProvisioned, "iscsi")] }
    Status := { Phase := VolumeReleased } }

/-- A world whose store holds the example volume and whose `os.Stat` gives the
same answer for every path. -/
def exampleStore (artifact : StatResult) : World :=
  { classes := exampleClasses
    stat := fun _ => artifact
    getReference := exampleReference
    volumes := [exampleVolume] }

/-- Whether the store accepts the `Create` of `volume` that comes after `i`
rejected ones in a row from world `w`: call number `i` (counted from 0) is not
scripted to fail and no record has the name of the volume. -/
def createSucceeds (w : World) (volume : PersistentVolume) (i : Nat) : Bool :=
  (nextFault (w.createFaults.drop i)).isNone &&
    !(w.volumes.any (fun v => v.ObjectMeta.Name == volume.ObjectMeta.Name))

/-- A world whose store holds a bound volume named `pvc-u1` and fails the next
`Get` with a connection error, with one coming run of the script. -/
def exampleUnreachableStore : World :=
  { classes := exampleClasses
    stat := fun _ => StatResult.present
    getReference := exampleReference
    volumes := [{ exampleVolume with Status := { Phase := "Bound" } }]
    getFaults := [some "connection refused"]
    scriptRuns := [{ stdout := "10.0.0.1:3260 iqn.2016-04.test:vol\n", err := none }] }

/-! ## The decision predicates -/

/-- C1: `shouldProvision(claim)` is true exactly when the claim's
`Spec.VolumeName` is empty, the class cache finds the class named by
`getClaimClass(claim)` (the storage-class annotation value, or the empty string
when the annotation is absent) as a `StorageClass` without lookup error, and
that class's `Provisioner` equals the controller's `provisionerName`.  In
particular it is false for a bound claim, for a claim whose class is missing
from the cache, and for a claim whose class names another provisioner. -/
theorem shouldProvision_iff (ctrl : iscsiController) (w : World) (claim : PersistentVolumeClaim) :
    (getClaimClass claim = (claim.ObjectMeta.Annotations.get annClass).getD "") ∧
    (shouldProvision ctrl w claim = true ↔
      claim.Spec.VolumeName = "" ∧
      (w.classes (getClaimClass claim)).err = none ∧
      (w.classes (getClaimClass claim)).found = true ∧
      ∃ sc, (w.classes (getClaimClass claim)).item = some (CacheObj.storageClass sc) ∧
        sc.Provisioner = ctrl.provisionerName) ∧
    (claim.Spec.VolumeName ≠ "" → shouldProvision ctrl w claim = false) ∧
    ((w.classes (getClaimClass claim)).found = false → shouldProvision ctrl w claim = false) ∧
    (∀ sc, (w.classes (getClaimClass claim)).item = some (CacheObj.storageClass sc) →
      sc.Provisioner ≠ ctrl.provisionerName → shouldProvision ctrl w claim = false) := by
  have hiff : shouldProvision ctrl w claim = true ↔
      claim.Spec.VolumeName = "" ∧
      (w.classes (getClaimClass claim)).err = none ∧
      (w.classes (getClaimClass claim)).found = true ∧
      ∃ sc, (w.classes (getClaimClass claim)).item = some (CacheObj.storageClass sc) ∧
        sc.Provisioner = ctrl.provisionerName := by
    unfold shouldProvision
    by_cases hv : claim.Spec.VolumeName = ""
    · cases herr : (w.classes (getClaimClass claim)).err with
      | some e => simp [hv, herr]
      | none =>
        cases hf : (w.classes (getClaimClass claim)).found with
        | false => simp [hv, herr, hf]
        | true =>
          cases hi : (w.classes (getClaimClass claim)).item with
          | none => simp [hv, herr, hf, hi]
          | some o =>
            cases o with
            | other d => simp [hv, herr, hf, hi]
            | storageClass sc => simp [hv, herr, hf, hi]
    · simp [hv]
  refine ⟨?_, hiff, ?_, ?_, ?_⟩
  · unfold getClaimClass
    cases claim.ObjectMeta.Annotations.get annClass <;> rfl
  · intro hv
    cases h : shouldProvision ctrl w claim with
    | false => rfl
    | true => exact absurd (hiff.mp h).1 hv
  · intro hf
    cases h : shouldProvision ctrl w claim with
    | false => rfl
    | true => have := (hiff.mp h).2.2.1; rw [hf] at this; cases this
  · intro sc hi hp
    cases h : shouldProvision ctrl w claim with
    | false => rfl
    | true =>
      obtain ⟨sc2, h1, h2⟩ := (hiff.mp h).2.2.2
      rw [hi] at h1
      cases h1
      exact absurd h2 hp

/-- C2: `shouldDelete(volume)` is true exactly when the volume's phase is
`Released` or `Failed`, the volume carries no provisioned-by annotation or one
equal to the controller's `provisionerName`, and `os.Stat` of
`iscsi-volume-<volume name>` does not report that the path does not exist.  In
particular it is false for a volume in another phase, for a volume with a
foreign provisioned-by annotation, and for a volume whose backend artifact is
absent. -/
theorem shouldDelete_iff (ctrl : iscsiController) (w : World) (volume : PersistentVolume) :
    (shouldDelete ctrl w volume = true ↔
      (volume.Status.Phase = VolumeReleased ∨ volume.Status.Phase = VolumeFailed) ∧
      ( hasAnnotation volume.ObjectMeta annDynamicallyProvisioned = false ∨
        volume.ObjectMeta.Annotations.get annDynamicallyProvisioned = some ctrl.provisionerName) ∧
      w.stat ("iscsi-volume-" ++ volume.ObjectMeta.Name) ≠ StatResult.notExist) ∧
    (volume.Status.Phase ≠ VolumeReleased → volume.Status.Phase ≠ VolumeFailed →
      shouldDelete ctrl w volume = false) ∧
    (∀ ann, volume.ObjectMeta.Annotations.get annDynamicallyProvisioned = some ann →
      ann ≠ ctrl.provisionerName → shouldDelete ctrl w volume = false) ∧
    (w.stat ("iscsi-volume-" ++ volume.ObjectMeta.Name) = StatResult.notExist →
      shouldDelete ctrl w volume = false) := by
  have hiff : shouldDelete ctrl w volume = true ↔
      (volume.Status.Phase = VolumeReleased ∨ volume.Status.Phase = VolumeFailed) ∧
      ( hasAnnotation volume.ObjectMeta annDynamicallyProvisioned = false ∨
        volume.ObjectMeta.Annotations.get annDynamicallyProvisioned = some ctrl.provisionerName) ∧
      w.stat ("iscsi-volume-" ++ volume.ObjectMeta.Name) ≠ StatResult.notExist := by
    unfold shouldDelete hasAnnotation GoMap.index
    by_cases hp : volume.Status.Phase ≠ VolumeReleased ∧ volume.Status.Phase ≠ VolumeFailed
    · simp [hp]
    · have hp2 : volume.Status.Phase = VolumeReleased ∨ volume.Status.Phase = VolumeFailed := by
        by_contra hc
        exact hp ⟨fun h => hc (Or.inl h), fun h => hc (Or.inr h)⟩
      rw [if_neg hp]
      cases ha : volume.ObjectMeta.Annotations.get annDynamicallyProvisioned with
      | none => simp [hp2]
      | some a =>
        by_cases hown : a = ctrl.provisionerName
        · simp [hp2, hown]
        · simp [hp2, hown]
  refine ⟨hiff, ?_, ?_, ?_⟩
  · intro h1 h2
    cases h : shouldDelete ctrl w volume with
    | false => rfl
    | true => rcases (hiff.mp h).1 with h3 | h3
              · exact absurd h3 h1
              · exact absurd h3 h2
  · intro ann ha hne
    cases h : shouldDelete ctrl w volume with
    | false => rfl
    | true =>
      rcases (hiff.mp h).2.1 with h3 | h3
      · simp [ hasAnnotation, ha] at h3
      · rw [ha] at h3
        cases h3
        exact absurd rfl hne
  · intro hs
    cases h : shouldDelete ctrl w volume with
    | false => rfl
    | true => exact absurd hs (hiff.mp h).2.2


/-! ## The backend allocation step -/

/-- C10: `createVolume` in script mode does not always return normally: on a
run of the script that prints nothing it panics at `result[0]`, and on a run
that prints one field it panics at `result[1]`. -/
theorem createVolume_panics_on_short_output :
    (createVolume exampleController "pvc-u1"
        (exampleWorld [{ stdout := "", err := some "exit status 1" }])).2
      = Go.panic "index out of range [0] with length 0" ∧
    (createVolume exampleController "pvc-u1"
        (exampleWorld [{ stdout := "10.0.0.1:3260\n", err := none }])).2
      = Go.panic "index out of range [1] with length 1" := by
  decide

/-- C6: when the run of the script returns an error but prints two fields,
`provisionClaimOperation` records no event and goes on to call `Create` on the
store once; when it returns an error and prints nothing, the operation panics. -/
theorem provisionClaimOperation_ignores_script_error :
    ((provisionClaimOperation exampleController exampleClaim
        (exampleWorld [{ stdout := "10.0.0.1:3260 iqn.2016-04.test:vol\n", err := some "exit status 1" }])
      ).world.log.map (fun c => (c.isExec, c.isCreate, c.isEvent))
      = [(false, false, false), (true, false, false), (false, true, false)]) ∧
    ((provisionClaimOperation exampleController exampleClaim
        (exampleWorld [{ stdout := "10.0.0.1:3260 iqn.2016-04.test:vol\n", err := some "exit status 1" }])
      ).world.volumes.map (fun v => v.ObjectMeta.Name) = ["pvc-u1"]) ∧
    ((provisionClaimOperation exampleController exampleClaim
        (exampleWorld [{ stdout := "", err := some "exit status 1" }])).panic
      = some "index out of range [0] with length 0") := by
  decide

/-! ## Operation keys -/

/-- A list splits in one way only at the first occurrence of an element. -/
theorem append_cons_unique {α : Type} (c : α) :
    ∀ (a a2 b b2 : List α), c ∉ a → c ∉ a2 → a ++ c :: b = a2 ++ c :: b2 → a = a2 ∧ b = b2
  | [], [], b, b2, _, _, h => by
    simp at h
    exact ⟨rfl, h⟩
  | [], x :: xs, b, b2, _, h2, h => by
    simp at h
    exact absurd h.1 (fun hc => h2 (by simp [hc]))
  | x :: xs, [], b, b2, h1, _, h => by
    simp at h
    exact absurd h.1.symm (fun hc => h1 (by simp [hc]))
  | x :: xs, y :: ys, b, b2, h1, h2, h => by
    simp at h
    have ih := append_cons_unique c xs ys b b2 (fun hc => h1 (by simp [hc]))
      (fun hc => h2 (by simp [hc])) h.2
    exact ⟨by rw [h.1, ih.1], ih.2⟩

/-- The characters of a provision key. -/
theorem addClaim_opName_data (claim : PersistentVolumeClaim) :
    (addClaim.opName claim).data =
      "provision-".data ++ (claim.ObjectMeta.Namespace.data ++ '/' ::
        (claim.ObjectMeta.Name.data ++ '[' :: (claim.ObjectMeta.UID.data ++ [']']))) := by
  simp [addClaim.opName, claimToClaimKey, String.data_append]

/-- The characters of a delete key. -/
theorem updateVolume_opName_data (volume : PersistentVolume) :
    (updateVolume.opName volume).data =
      "delete-".data ++ (volume.ObjectMeta.Name.data ++ '[' :: (volume.ObjectMeta.UID.data ++ [']'])) := by
  simp [updateVolume.opName, String.data_append]

/-- C9, as stated, fails: two claims of different namespaces and names have the
same provision key, and two volumes of different names and UIDs have the same
delete key. -/
theorem opName_collision :
    (addClaim.opName { ObjectMeta := { Namespace := "a", Name := "b/c", UID := "u" } }
      = addClaim.opName { ObjectMeta := { Namespace := "a/b", Name := "c", UID := "u" } }) ∧
    (addClaim.opName { ObjectMeta := { Namespace := "a", Name := "b[c]", UID := "u" } }
      = addClaim.opName { ObjectMeta := { Namespace := "a", Name := "b", UID := "c][u" } }) ∧
    (updateVolume.opName { ObjectMeta := { Name := "b[c]", UID := "u" } }
      = updateVolume.opName { ObjectMeta := { Name := "b", UID := "c][u" } }) := by
  decide

/-- C9, amended: provision keys of claims whose namespaces contain no `/` and
whose names contain no `[` are equal only if namespace, name and UID are equal;
delete keys of volumes whose names contain no `[` are equal only if name and
UID are equal; and no provision key equals a delete key. -/
theorem opName_injective :
    (∀ a b : PersistentVolumeClaim,
      '/' ∉ a.ObjectMeta.Namespace.data → '/' ∉ b.ObjectMeta.Namespace.data →
      '[' ∉ a.ObjectMeta.Name.data → '[' ∉ b.ObjectMeta.Name.data →
      addClaim.opName a = addClaim.opName b →
        a.ObjectMeta.Namespace = b.ObjectMeta.Namespace ∧ a.ObjectMeta.Name = b.ObjectMeta.Name ∧
        a.ObjectMeta.UID = b.ObjectMeta.UID) ∧
    (∀ v u : PersistentVolume,
      '[' ∉ v.ObjectMeta.Name.data → '[' ∉ u.ObjectMeta.Name.data →
      updateVolume.opName v = updateVolume.opName u →
        v.ObjectMeta.Name = u.ObjectMeta.Name ∧ v.ObjectMeta.UID = u.ObjectMeta.UID) ∧
    (∀ (c : PersistentVolumeClaim) (v : PersistentVolume),
      addClaim.opName c ≠ updateVolume.opName v) := by
  refine ⟨?_, ?_, ?_⟩
  · intro a b ha hb hna hnb h
    have hd := congrArg String.data h
    rw [addClaim_opName_data, addClaim_opName_data] at hd
    have h1 := List.append_cancel_left hd
    obtain ⟨hns, h2⟩ := append_cons_unique '/' _ _ _ _ ha hb h1
    obtain ⟨hname, h3⟩ := append_cons_unique '[' _ _ _ _ hna hnb h2
    have huid := List.append_cancel_right h3
    exact ⟨String.ext hns, String.ext hname, String.ext huid⟩
  · intro v u hv hu h
    have hd := congrArg String.data h
    rw [updateVolume_opName_data, updateVolume_opName_data] at hd
    have h1 := List.append_cancel_left hd
    obtain ⟨hname, h3⟩ := append_cons_unique '[' _ _ _ _ hv hu h1
    have huid := List.append_cancel_right h3
    exact ⟨String.ext hname, String.ext huid⟩
  · intro c v h
    have hd := congrArg String.data h
    rw [addClaim_opName_data, updateVolume_opName_data] at hd
    have hh := congrArg List.head? hd
    simp at hh

/-- C9, amended, at the claim `ns/pvc1` and the claim of the same namespace
and name created anew with another UID, and at a volume: the three keys differ. -/
theorem opName_injective_witness :
    addClaim.opName exampleClaim = "provision-ns/pvc1[u1]" ∧
    addClaim.opName exampleClaim
      ≠ addClaim.opName { exampleClaim with ObjectMeta := { exampleClaim.ObjectMeta with UID := "u2" } } ∧
    addClaim.opName exampleClaim ≠ updateVolume.opName exampleVolume :=
  ⟨by decide,
    fun h => absurd
      (opName_injective.1 exampleClaim
        { exampleClaim with ObjectMeta := { exampleClaim.ObjectMeta with UID := "u2" } }
        (by decide) (by decide) (by decide) (by decide) h).2.2 (by decide),
    opName_injective.2.2 exampleClaim exampleVolume⟩

/-! ## Facts about Go maps -/

/-- After `m[k] = v` the lookup of `k` finds `v`. -/
theorem GoMap.get_set_same {α : Type} (l : List (String × α)) (k : String) (v : α) :
    GoMap.get (some (GoMap.set l k v)) k = some v := by
  simp [GoMap.get, GoMap.set]

/-- Filtering by a condition that the searched condition implies does not
change what the search finds. -/
theorem find?_filter_of_imp {α : Type} (P Q : α → Bool) (h : ∀ a, P a = true → Q a = true) :
    ∀ l : List α, List.find? P (l.filter Q) = List.find? P l
  | [] => rfl
  | a :: l => by
    have ih := find?_filter_of_imp P Q h l
    cases hq : Q a with
    | true =>
      rw [List.filter_cons_of_pos hq, List.find?_cons, List.find?_cons, ih]
    | false =>
      have hp : P a = false := by
        cases hp : P a with
        | false => rfl
        | true => rw [h a hp] at hq; cases hq
      rw [List.filter_cons_of_neg (by simp [hq]), List.find?_cons, hp, ih]

/-- After `m[k] = v` the lookup of another key is as before. -/
theorem GoMap.get_set_other {α : Type} (l : List (String × α)) (k k2 : String) (v : α)
    (h : k2 ≠ k) : GoMap.get (some (GoMap.set l k v)) k2 = GoMap.get (some l) k2 := by
  have hk : (k == k2) = false := by
    simp only [beq_eq_false_iff_ne]
    exact fun hc => h hc.symm
  have hf := find?_filter_of_imp (fun p : String × α => p.1 == k2) (fun p => !(p.1 == k))
    (by
      intro a ha
      simp only [beq_iff_eq] at ha
      simp only [Bool.not_eq_true', beq_eq_false_iff_ne, ha]
      exact h) l
  simp only [GoMap.get, GoMap.set, List.find?_cons, hk, hf]

/-! ## Facts about the store and the backend -/

/-- The world that `Get` leaves. -/
theorem Get_fst (w : World) (name : String) :
    (PersistentVolumes.Get w name).1 =
      { w with getFaults := w.getFaults.tail, log := w.log ++ [Call.storeGet name] } := by
  unfold PersistentVolumes.Get
  dsimp only
  split
  · rfl
  · split <;> rfl

/-- The lookup `Get` fails when no record has the name. -/
theorem Get_absent (w : World) (name : String)
    (h : ∀ v ∈ w.volumes, v.ObjectMeta.Name ≠ name) :
    ∃ e, (PersistentVolumes.Get w name).2 = Except.error e := by
  unfold PersistentVolumes.Get
  dsimp only
  split
  · exact ⟨_, rfl⟩
  · split
    · rename_i v hv
      have hm := List.mem_of_find?_eq_some hv
      have hp := List.find?_some hv
      simp only [beq_iff_eq] at hp
      exact absurd hp (h v hm)
    · exact ⟨_, rfl⟩

/-- The lookup `Get` succeeds when a record has the name and no fault is scripted. -/
theorem Get_present (w : World) (name : String) (hf : nextFault w.getFaults = none)
    (h : ∃ v ∈ w.volumes, v.ObjectMeta.Name = name) :
    ∃ v, (PersistentVolumes.Get w name).2 = Except.ok v := by
  unfold PersistentVolumes.Get
  dsimp only
  rw [hf]
  dsimp only
  split
  · exact ⟨_, rfl⟩
  · rename_i hnone
    obtain ⟨v, hv, hn⟩ := h
    have := List.find?_eq_none.mp hnone v hv
    simp [hn] at this

/-- The log after `Create`. -/
theorem Create_log (w : World) (v : PersistentVolume) :
    (PersistentVolumes.Create w v).1.log = w.log ++ [Call.storeCreate v] := by
  unfold PersistentVolumes.Create
  dsimp only
  split
  · rfl
  · split <;> rfl

/-- The scripted faults after `Create`. -/
theorem Create_faults (w : World) (v : PersistentVolume) :
    (PersistentVolumes.Create w v).1.createFaults = w.createFaults.tail ∧
    (PersistentVolumes.Create w v).1.getFaults = w.getFaults := by
  unfold PersistentVolumes.Create
  dsimp only
  split
  · exact ⟨rfl, rfl⟩
  · split <;> exact ⟨rfl, rfl⟩

/-- The records after `Create`: the new record is added exactly when `Create`
returns no error, and then no record had its name. -/
theorem Create_volumes (w : World) (v : PersistentVolume) :
    ((PersistentVolumes.Create w v).2 = none ∧
      (PersistentVolumes.Create w v).1.volumes = w.volumes ++ [v] ∧
      ∀ x ∈ w.volumes, x.ObjectMeta.Name ≠ v.ObjectMeta.Name) ∨
    ((∃ e, (PersistentVolumes.Create w v).2 = some e) ∧
      (PersistentVolumes.Create w v).1.volumes = w.volumes) := by
  unfold PersistentVolumes.Create
  dsimp only
  split
  · exact Or.inr ⟨⟨_, rfl⟩, rfl⟩
  · split
    · exact Or.inr ⟨⟨_, rfl⟩, rfl⟩
    · rename_i hany
      refine Or.inl ⟨rfl, rfl, ?_⟩
      intro x hx hn
      apply hany
      simp only [List.any_eq_true, beq_iff_eq]
      exact ⟨x, hx, hn⟩

/-- A scripted fault makes `Create` fail. -/
theorem Create_fault (w : World) (v : PersistentVolume) (e : String)
    (h : nextFault w.createFaults = some e) : (PersistentVolumes.Create w v).2 = some e := by
  unfold PersistentVolumes.Create
  dsimp only
  rw [h]

/-- What `createVolume` changes in the world: it adds its calls to the log. -/
theorem createVolume_world (ctrl : iscsiController) (n : String) (w : World) :
    (createVolume ctrl n w).1.log = w.log ++ execCalls ctrl ∧
    (createVolume ctrl n w).1.volumes = w.volumes ∧
    (createVolume ctrl n w).1.createFaults = w.createFaults ∧
    (createVolume ctrl n w).1.getFaults = w.getFaults := by
  unfold createVolume execCalls runScript
  by_cases hm : ctrl.provisionerConfig.Opmode = "script"
  · simp only [hm, if_true]
    cases w.scriptRuns with
    | nil => simp only []; split <;> [simp; (split <;> simp)]
    | cons r rs => simp only []; split <;> [simp; (split <;> simp)]
  · simp [hm]

/-- The result of `createVolume` depends on the coming script runs only. -/
theorem createVolume_result_congr (ctrl : iscsiController) (n : String) (w w2 : World)
    (h : w.scriptRuns = w2.scriptRuns) : (createVolume ctrl n w).2 = (createVolume ctrl n w2).2 := by
  unfold createVolume runScript
  by_cases hm : ctrl.provisionerConfig.Opmode = "script"
  · simp only [hm, if_true, ← h]
    cases w.scriptRuns with
    | nil => simp only []; split <;> [rfl; (split <;> rfl)]
    | cons r rs => simp only []; split <;> [rfl; (split <;> rfl)]
  · simp [hm]

/-- The world that `provision` leaves is the one that `createVolume` leaves. -/
theorem provision_fst (ctrl : iscsiController) (o : VolumeOptions) (w : World) :
    (provision ctrl o w).1 = (createVolume ctrl o.PVName w).1 := by
  unfold provision
  rcases createVolume ctrl o.PVName w with ⟨w1, (⟨s, p, (_ | e)⟩ | msg)⟩ <;> rfl

/-- The volume that `provision` returns when `createVolume` returns no error. -/
theorem provision_snd (ctrl : iscsiController) (o : VolumeOptions) (w : World)
    (server path : String) (h : (createVolume ctrl o.PVName w).2 = Go.ret (server, path, none)) :
    (provision ctrl o w).2 = Go.ret (Except.ok (provisionedVolume o server path)) := by
  unfold provision
  rcases hc : createVolume ctrl o.PVName w with ⟨w1, (⟨s, p, (_ | e)⟩ | msg)⟩
  · rw [hc] at h
    simp at h
    simp [h.1, h.2]
  · rw [hc] at h
    simp at h
  · rw [hc] at h
    simp at h
/-! ## Facts about the provisioning operation -/

/-- The fields of a world with one more call in its log. -/
theorem logCall_fields (w : World) (c : Call) :
    (w.logCall c).log = w.log ++ [c] ∧ (w.logCall c).volumes = w.volumes ∧
    (w.logCall c).getFaults = w.getFaults ∧ (w.logCall c).createFaults = w.createFaults :=
  ⟨rfl, rfl, rfl, rfl⟩

/-- The loop that deletes the storage asset: with at least one iteration it
makes one deallocation call, which succeeds. -/
theorem deleteLoop_succ (ctrl : iscsiController) (v : PersistentVolume) (n : Nat) (w : World)
    (err : Option String) :
    deleteLoop ctrl v (n + 1) w err = (w.logCall (Call.dealloc v none), none) := by
  rfl

/-- One iteration of the loop that saves the volume, when `Create` succeeds. -/
theorem createLoop_succ_ok (v : PersistentVolume) (n : Nat) (w w1 : World) (err : Option String)
    (h : PersistentVolumes.Create w v = (w1, none)) :
    createLoop v (n + 1) w err = (w1, none) := by
  rw [createLoop, h]

/-- One iteration of the loop that saves the volume, when `Create` fails. -/
theorem createLoop_succ_err (v : PersistentVolume) (n : Nat) (w w1 : World) (err : Option String)
    (e : String) (h : PersistentVolumes.Create w v = (w1, some e)) :
    createLoop v (n + 1) w err = createLoop v n (w1.logCall Call.sleep) (some e) := by
  rw [createLoop, h]

/-- The loop that saves the volume: the calls it makes are `Create` calls for
the volume and sleeps, at least one `Create` when the retry count is positive;
the store gets at most the one new record, under a name it did not hold. -/
theorem createLoop_spec (v : PersistentVolume) :
    ∀ (n : Nat) (w : World) (err : Option String),
      ∃ l, (createLoop v n w err).1.log = w.log ++ l ∧
        (∀ c ∈ l, c = Call.storeCreate v ∨ c = Call.sleep) ∧
        (0 < n → Call.storeCreate v ∈ l) ∧
        ((createLoop v n w err).1.volumes = w.volumes ∨
          ((createLoop v n w err).1.volumes = w.volumes ++ [v] ∧
            ∀ x ∈ w.volumes, x.ObjectMeta.Name ≠ v.ObjectMeta.Name)) ∧
        (createLoop v n w err).1.getFaults = w.getFaults
  | 0, w, err => ⟨[], by simp [createLoop], by simp, by simp, Or.inl rfl, rfl⟩
  | n + 1, w, err => by
    have hlog := Create_log w v
    have hfl := (Create_faults w v).2
    have hvol := Create_volumes w v
    rcases hC : PersistentVolumes.Create w v with ⟨w1, r⟩
    rw [hC] at hlog hfl hvol
    simp only at hlog hfl hvol
    cases r with
    | none =>
      rw [createLoop_succ_ok v n w w1 err hC]
      refine ⟨[Call.storeCreate v], hlog, by simp, by simp, ?_, hfl⟩
      rcases hvol with ⟨_, h2, h3⟩ | ⟨⟨e, he⟩, _⟩
      · exact Or.inr ⟨h2, h3⟩
      · cases he
    | some e =>
      rw [createLoop_succ_err v n w w1 err e hC]
      obtain ⟨l, h1, h2, _, h4, h5⟩ := createLoop_spec v n (w1.logCall Call.sleep) (some e)
      have hv1 : w1.volumes = w.volumes := by
        rcases hvol with ⟨h, _, _⟩ | ⟨_, h⟩
        · cases h
        · exact h
      rw [(logCall_fields w1 Call.sleep).1, hlog] at h1
      rw [(logCall_fields w1 Call.sleep).2.1, hv1] at h4
      rw [(logCall_fields w1 Call.sleep).2.2.1, hfl] at h5
      refine ⟨Call.storeCreate v :: Call.sleep :: l, ?_, ?_, by simp, h4, h5⟩
      · rw [h1]
        simp
      · intro c hc
        simp only [List.mem_cons] at hc
        rcases hc with hc | hc | hc
        · exact Or.inl hc
        · exact Or.inr hc
        · exact h2 c hc

/-- The loop that saves the volume, when the store is scripted to fail the
next `n` calls of `Create`: it makes `n` calls of `Create`, the store keeps its
records, and with `n` positive `err` is not nil after the loop. -/
theorem createLoop_fail (v : PersistentVolume) :
    ∀ (n : Nat) (w : World) (err : Option String),
      (∀ i, i < n → ∃ e, w.createFaults[i]? = some (some e)) →
      ∃ l, (createLoop v n w err).1.log = w.log ++ l ∧
        (∀ c ∈ l, c = Call.storeCreate v ∨ c = Call.sleep) ∧
        (l.filter Call.isCreate).length = n ∧
        (createLoop v n w err).1.volumes = w.volumes ∧
        (0 < n → ∃ e, (createLoop v n w err).2 = some e)
  | 0, w, err, _ => ⟨[], by simp [createLoop], by simp, by simp, rfl, by simp⟩
  | n + 1, w, err, hf => by
    obtain ⟨e0, he0⟩ := hf 0 (Nat.succ_pos n)
    obtain ⟨rest, hrest⟩ : ∃ rest, w.createFaults = some e0 :: rest := by
      cases hcf : w.createFaults with
      | nil => rw [hcf] at he0; simp at he0
      | cons f rest =>
        rw [hcf] at he0
        simp at he0
        exact ⟨rest, by rw [he0]⟩
    have hnext : nextFault w.createFaults = some e0 := by rw [hrest]; rfl
    have hres := Create_fault w v e0 hnext
    have hlog := Create_log w v
    have hfl := (Create_faults w v).1
    have hvol := Create_volumes w v
    rcases hC : PersistentVolumes.Create w v with ⟨w1, r⟩
    rw [hC] at hlog hfl hvol hres
    simp only at hlog hfl hvol hres
    subst hres
    rw [createLoop_succ_err v n w w1 err e0 hC]
    have hv1 : w1.volumes = w.volumes := by
      rcases hvol with ⟨h, _, _⟩ | ⟨_, h⟩
      · cases h
      · exact h
    have hf2 : ∀ i, i < n → ∃ e, (w1.logCall Call.sleep).createFaults[i]? = some (some e) := by
      intro i hi
      obtain ⟨e, he⟩ := hf (i + 1) (Nat.succ_lt_succ hi)
      refine ⟨e, ?_⟩
      rw [(logCall_fields w1 Call.sleep).2.2.2, hfl, hrest, List.tail_cons]
      rw [hrest] at he
      simpa using he
    obtain ⟨l, h1, h2, h3, h4, h5⟩ := createLoop_fail v n (w1.logCall Call.sleep) (some e0) hf2
    rw [(logCall_fields w1 Call.sleep).1, hlog] at h1
    rw [(logCall_fields w1 Call.sleep).2.1, hv1] at h4
    refine ⟨Call.storeCreate v :: Call.sleep :: l, ?_, ?_, ?_, h4, ?_⟩
    · rw [h1]
      simp
    · intro c hc
      simp only [List.mem_cons] at hc
      rcases hc with hc | hc | hc
      · exact Or.inl hc
      · exact Or.inr hc
      · exact h2 c hc
    · simp [List.filter_cons, Call.isCreate, h3]
    · intro _
      cases n with
      | zero => exact ⟨e0, by simp [createLoop]⟩
      | succ m => exact h5 (Nat.succ_pos m)

/-- The tail of the provisioning operation: it does not panic; the `Create`
calls it makes are for the volume it was given, at least one when the retry
count is positive; the store gets at most one new record, the given volume,
under a name it did not hold. -/
theorem saveVolume_spec (ctrl : iscsiController) (claim : PersistentVolumeClaim)
    (v : PersistentVolume) (w : World) :
    (saveVolume ctrl claim v w).panic = none ∧
    ∃ l, (saveVolume ctrl claim v w).world.log = w.log ++ l ∧
      (∀ c ∈ l, c.isCreate = true → c = Call.storeCreate v) ∧
      (∀ c ∈ l, c.isExec = false) ∧
      (0 < ctrl.createProvisionedPVRetryCount → Call.storeCreate v ∈ l) ∧
      ((saveVolume ctrl claim v w).world.volumes = w.volumes ∨
        ((saveVolume ctrl claim v w).world.volumes = w.volumes ++ [v] ∧
          ∀ x ∈ w.volumes, x.ObjectMeta.Name ≠ v.ObjectMeta.Name)) ∧
      (saveVolume ctrl claim v w).world.getFaults = w.getFaults := by
  obtain ⟨l, h1, h2, h3, h4, h5⟩ :=
    createLoop_spec v ctrl.createProvisionedPVRetryCount.toNat w none
  have hpos : 0 < ctrl.createProvisionedPVRetryCount → Call.storeCreate v ∈ l := by
    intro hN
    apply h3
    omega
  have hl : ∀ c ∈ l, (c.isCreate = true → c = Call.storeCreate v) ∧ c.isExec = false := by
    intro c hc
    rcases h2 c hc with h | h <;> subst h <;> simp [Call.isCreate, Call.isExec]
  unfold saveVolume
  rcases hC : createLoop v ctrl.createProvisionedPVRetryCount.toNat w none with ⟨w3, r⟩
  rw [hC] at h1 h4 h5
  simp only at h1 h4 h5
  cases r with
  | none =>
    exact ⟨rfl, l, h1, fun c hc => (hl c hc).1, fun c hc => (hl c hc).2, hpos, h4, h5⟩
  | some err =>
    dsimp only
    cases hn : ctrl.createProvisionedPVRetryCount.toNat with
    | zero =>
      refine ⟨by simp [deleteLoop], l ++ [Call.event (Subject.claim claim) EventTypeWarning
        "ProvisioningFailed" (Message.sprintf
          "Error creating provisioned PV object for claim %s: %v. Deleting the volume."
          [claimToClaimKey claim, err]), Call.event (Subject.claim claim) EventTypeWarning
        "ProvisioningCleanupFailed" (Message.sprintf
          "Error cleaning provisioned volume for claim %s: %v. Please delete manually."
          [claimToClaimKey claim, err])], ?_, ?_, ?_, ?_, ?_, ?_⟩
      · simp [deleteLoop, recordEvent, World.logCall, h1]
      · intro c hc
        simp only [List.mem_append, List.mem_cons, List.mem_singleton, List.not_mem_nil,
          or_false] at hc
        rcases hc with hc | hc | hc
        · exact (hl c hc).1
        · subst hc; simp [Call.isCreate]
        · subst hc; simp [Call.isCreate]
      · intro c hc
        simp only [List.mem_append, List.mem_cons, List.mem_singleton, List.not_mem_nil,
          or_false] at hc
        rcases hc with hc | hc | hc
        · exact (hl c hc).2
        · subst hc; simp [Call.isExec]
        · subst hc; simp [Call.isExec]
      · intro hN
        exact List.mem_append_left _ (hpos hN)
      · simpa [deleteLoop, recordEvent, World.logCall] using h4
      · simpa [deleteLoop, recordEvent, World.logCall] using h5
    | succ m =>
      rw [deleteLoop_succ]
      refine ⟨rfl, l ++ [Call.event (Subject.claim claim) EventTypeWarning
        "ProvisioningFailed" (Message.sprintf
          "Error creating provisioned PV object for claim %s: %v. Deleting the volume."
          [claimToClaimKey claim, err]), Call.dealloc v none], ?_, ?_, ?_, ?_, ?_, ?_⟩
      · simp [recordEvent, World.logCall, h1]
      · intro c hc
        simp only [List.mem_append, List.mem_cons, List.mem_singleton, List.not_mem_nil,
          or_false] at hc
        rcases hc with hc | hc | hc
        · exact (hl c hc).1
        · subst hc; simp [Call.isCreate]
        · subst hc; simp [Call.isCreate]
      · intro c hc
        simp only [List.mem_append, List.mem_cons, List.mem_singleton, List.not_mem_nil,
          or_false] at hc
        rcases hc with hc | hc | hc
        · exact (hl c hc).2
        · subst hc; simp [Call.isExec]
        · subst hc; simp [Call.isExec]
      · intro hN
        exact List.mem_append_left _ (hpos hN)
      · simpa [recordEvent, World.logCall] using h4
      · simpa [recordEvent, World.logCall] using h5
/-- The calls added by a run whose log is the old log followed by `l`. -/
theorem newCalls_of_log (w w1 : World) (l : List Call) (h : w1.log = w.log ++ l) :
    newCalls w w1 = l := by
  simp [newCalls, h]

/-- The volume record after lines 329 to 332: the name is kept, the two
annotations and the claim reference are set. -/
theorem annotateVolume_props (ctrl : iscsiController) (claimClass : String)
    (claimRef : ObjectReference) (pv : PersistentVolume) :
    (annotateVolume ctrl claimClass claimRef pv).ObjectMeta.Name = pv.ObjectMeta.Name ∧
    (annotateVolume ctrl claimClass claimRef pv).ObjectMeta.Annotations.get
      annDynamicallyProvisioned = some ctrl.provisionerName ∧
    (annotateVolume ctrl claimClass claimRef pv).ObjectMeta.Annotations.get annClass
      = some claimClass ∧
    (annotateVolume ctrl claimClass claimRef pv).Spec.ClaimRef = some claimRef := by
  refine ⟨rfl, ?_, ?_, rfl⟩
  · unfold annotateVolume setAnnotation
    dsimp only
    rw [GoMap.get_set_other _ _ _ _ (by decide), GoMap.get_set_same]
  · unfold annotateVolume setAnnotation
    dsimp only
    rw [GoMap.get_set_same]

/-- The run of `provisionClaimOperation` up to the backend allocation, when
the lookup of the volume fails, the claim reference is built, the class is
found and `createVolume` returns a server and a path: the operation goes on to
save the annotated volume. -/
theorem provisionClaimOperation_reach (ctrl : iscsiController) (claim : PersistentVolumeClaim)
    (w : World) (e : String) (ref : ObjectReference) (sc : StorageClass) (server path : String)
    (hget : (PersistentVolumes.Get w (getProvisionedVolumeNameForClaim ctrl claim)).2
      = Except.error e)
    (href : w.getReference claim = Except.ok ref)
    (hclass : w.classes (getClaimClass claim)
      = { item := some (CacheObj.storageClass sc), found := true, err := none })
    (halloc : (createVolume ctrl (getProvisionedVolumeNameForClaim ctrl claim) w).2
      = Go.ret (server, path, none)) :
    provisionClaimOperation ctrl claim w =
      saveVolume ctrl claim
        (annotateVolume ctrl (getClaimClass claim) ref
          (provisionedVolume
            (volumeOptions claim (getProvisionedVolumeNameForClaim ctrl claim) sc) server path))
        (createVolume ctrl (getProvisionedVolumeNameForClaim ctrl claim)
          (PersistentVolumes.Get w (getProvisionedVolumeNameForClaim ctrl claim)).1).1 := by
  have hfst := Get_fst w (getProvisionedVolumeNameForClaim ctrl claim)
  rcases hG : PersistentVolumes.Get w (getProvisionedVolumeNameForClaim ctrl claim) with ⟨W1, r⟩
  rw [hG] at hget hfst
  simp only at hget hfst
  subst hget
  have h1 : W1.getReference claim = Except.ok ref := by rw [hfst]; exact href
  have h2 : W1.classes (getClaimClass claim)
      = { item := some (CacheObj.storageClass sc), found := true, err := none } := by
    rw [hfst]; exact hclass
  have h3 : (createVolume ctrl (getProvisionedVolumeNameForClaim ctrl claim) W1).2
      = Go.ret (server, path, none) := by
    rw [← halloc]
    apply createVolume_result_congr
    rw [hfst]
  have h4 := provision_snd ctrl
    (volumeOptions claim (getProvisionedVolumeNameForClaim ctrl claim) sc) W1 server path h3
  have h5 := provision_fst ctrl
    (volumeOptions claim (getProvisionedVolumeNameForClaim ctrl claim) sc) W1
  unfold provisionClaimOperation
  simp only [hG, h1, h2]
  rcases hP : provision ctrl
    (volumeOptions claim (getProvisionedVolumeNameForClaim ctrl claim) sc) W1 with ⟨w2, r2⟩
  rw [hP] at h4 h5
  simp only at h4 h5
  subst h4
  subst h5
  simp [volumeOptions]

/-- The run of `provisionClaimOperation` when the lookup of the volume fails
and the claim reference cannot be built: it stops after the lookup. -/
theorem provisionClaimOperation_noref (ctrl : iscsiController) (claim : PersistentVolumeClaim)
    (w : World) (e e2 : String)
    (hget : (PersistentVolumes.Get w (getProvisionedVolumeNameForClaim ctrl claim)).2
      = Except.error e)
    (href : w.getReference claim = Except.error e2) :
    provisionClaimOperation ctrl claim w =
      { world := (PersistentVolumes.Get w (getProvisionedVolumeNameForClaim ctrl claim)).1 } := by
  have hfst := Get_fst w (getProvisionedVolumeNameForClaim ctrl claim)
  rcases hG : PersistentVolumes.Get w (getProvisionedVolumeNameForClaim ctrl claim) with ⟨W1, r⟩
  rw [hG] at hget hfst
  simp only at hget hfst
  subst hget
  have h1 : W1.getReference claim = Except.error e2 := by rw [hfst]; exact href
  unfold provisionClaimOperation
  simp only [hG, h1]

/-- The run of `provisionClaimOperation` when the lookup finds the volume: it
stops after the lookup. -/
theorem provisionClaimOperation_found (ctrl : iscsiController) (claim : PersistentVolumeClaim)
    (w : World) (v : PersistentVolume)
    (hget : (PersistentVolumes.Get w (getProvisionedVolumeNameForClaim ctrl claim)).2
      = Except.ok v) :
    provisionClaimOperation ctrl claim w =
      { world := (PersistentVolumes.Get w (getProvisionedVolumeNameForClaim ctrl claim)).1 } := by
  rcases hG : PersistentVolumes.Get w (getProvisionedVolumeNameForClaim ctrl claim) with ⟨W1, r⟩
  rw [hG] at hget
  simp only at hget
  subst hget
  unfold provisionClaimOperation
  simp only [hG]

/-! ## The provisioning operation -/

/-- C3: for a claim whose class resolves to a class in the cache, when the
store holds no volume named `"pvc-" ++ UID` and the backend allocation
succeeds, every volume record that `provisionClaimOperation` hands to the
store's `Create` has that name, the provisioned-by annotation equal to the
controller's `provisionerName`, the storage-class annotation equal to the
claim's class, and `ClaimRef` equal to the reference built from the claim;
and when that reference can be built and the retry count is positive, such a
record is handed to `Create`. -/
theorem provisionClaimOperation_creates (ctrl : iscsiController)
    (claim : PersistentVolumeClaim) (w : World) (sc : StorageClass) (server path : String)
    (hstore : ∀ v ∈ w.volumes, v.ObjectMeta.Name ≠ "pvc-" ++ claim.ObjectMeta.UID)
    (hclass : w.classes (getClaimClass claim)
      = { item := some (CacheObj.storageClass sc), found := true, err := none })
    (halloc : (createVolume ctrl ("pvc-" ++ claim.ObjectMeta.UID) w).2
      = Go.ret (server, path, none)) :
    (∀ v, Call.storeCreate v ∈ newCalls w (provisionClaimOperation ctrl claim w).world →
      v.ObjectMeta.Name = "pvc-" ++ claim.ObjectMeta.UID ∧
      v.ObjectMeta.Annotations.get annDynamicallyProvisioned = some ctrl.provisionerName ∧
      v.ObjectMeta.Annotations.get annClass = some (getClaimClass claim) ∧
      ∃ ref, w.getReference claim = Except.ok ref ∧ v.Spec.ClaimRef = some ref) ∧
    (∀ ref, w.getReference claim = Except.ok ref → 0 < ctrl.createProvisionedPVRetryCount →
      ∃ v, Call.storeCreate v ∈ newCalls w (provisionClaimOperation ctrl claim w).world) := by
  obtain ⟨e, hget⟩ := Get_absent w (getProvisionedVolumeNameForClaim ctrl claim) hstore
  have hfst := Get_fst w (getProvisionedVolumeNameForClaim ctrl claim)
  cases href : w.getReference claim with
  | error e2 =>
    have hrun := provisionClaimOperation_noref ctrl claim w e e2 hget href
    have hcalls : newCalls w (provisionClaimOperation ctrl claim w).world
        = [Call.storeGet (getProvisionedVolumeNameForClaim ctrl claim)] := by
      apply newCalls_of_log
      rw [hrun, hfst]
    refine ⟨?_, ?_⟩
    · intro v hv
      rw [hcalls] at hv
      simp at hv
    · intro ref hc
      cases hc
  | ok ref =>
    have hrun := provisionClaimOperation_reach ctrl claim w e ref sc server path hget href hclass
      halloc
    obtain ⟨_, l, hl1, hl2, _, hl4, _, _⟩ := saveVolume_spec ctrl claim
      (annotateVolume ctrl (getClaimClass claim) ref
        (provisionedVolume
          (volumeOptions claim (getProvisionedVolumeNameForClaim ctrl claim) sc) server path))
      (createVolume ctrl (getProvisionedVolumeNameForClaim ctrl claim)
        (PersistentVolumes.Get w (getProvisionedVolumeNameForClaim ctrl claim)).1).1
    rw [← hrun, (createVolume_world _ _ _).1, hfst] at hl1
    have hcalls : newCalls w (provisionClaimOperation ctrl claim w).world
        = Call.storeGet (getProvisionedVolumeNameForClaim ctrl claim) :: (execCalls ctrl ++ l) := by
      apply newCalls_of_log
      rw [hl1]
      simp
    have hprops := annotateVolume_props ctrl (getClaimClass claim) ref
      (provisionedVolume
        (volumeOptions claim (getProvisionedVolumeNameForClaim ctrl claim) sc) server path)
    refine ⟨?_, ?_⟩
    · intro v hv
      rw [hcalls] at hv
      simp only [List.mem_cons, List.mem_append, reduceCtorEq, false_or] at hv
      rcases hv with hv | hv
      · unfold execCalls at hv
        split at hv <;> simp at hv
      · have hv2 := hl2 _ hv rfl
        injection hv2 with hv3
        subst hv3
        exact ⟨hprops.1, hprops.2.1, hprops.2.2.1, ref, rfl, hprops.2.2.2⟩
    · intro ref2 _ hN
      have hm := hl4 hN
      exact ⟨_, by rw [hcalls]; exact List.mem_cons_of_mem _ (List.mem_append_right _ hm)⟩

/-- C3 at the claim `ns/pvc1` of UID `u1` and class `fast`: the calls of the
run are the lookup, the run of the script and one `Create`, of a volume named
`pvc-u1` with the two annotations and the claim reference. -/
theorem provisionClaimOperation_creates_witness :
    (∃ v, Call.storeCreate v ∈ newCalls
        (exampleWorld [{ stdout := "10.0.0.1:3260 iqn.2016-04.test:vol\n", err := none }])
        (provisionClaimOperation exampleController exampleClaim
          (exampleWorld [{ stdout := "10.0.0.1:3260 iqn.2016-04.test:vol\n", err := none }])).world) ∧
    (∀ v, Call.storeCreate v ∈ newCalls
        (exampleWorld [{ stdout := "10.0.0.1:3260 iqn.2016-04.test:vol\n", err := none }])
        (provisionClaimOperation exampleController exampleClaim
          (exampleWorld [{ stdout := "10.0.0.1:3260 iqn.2016-04.test:vol\n", err := none }])).world →
      v.ObjectMeta.Name = "pvc-u1" ∧
      v.ObjectMeta.Annotations.get annDynamicallyProvisioned = some "iscsi" ∧
      v.ObjectMeta.Annotations.get annClass = some "fast" ∧
      ∃ ref, exampleReference exampleClaim = Except.ok ref ∧ v.Spec.ClaimRef = some ref) :=
  have h := provisionClaimOperation_creates exampleController exampleClaim
    (exampleWorld [{ stdout := "10.0.0.1:3260 iqn.2016-04.test:vol\n", err := none }])
    { Name := "fast", Provisioner := "iscsi" } "10.0.0.1:3260" "iqn.2016-04.test:vol"
    (by simp [exampleWorld]) (by decide) (by decide)
  ⟨h.2 _ rfl (by decide), h.1⟩

/-- The calls of `createVolume` are runs of the script. -/
theorem execCalls_mem (ctrl : iscsiController) :
    ∀ c ∈ execCalls ctrl, c = Call.exec ctrl.provisionerConfig.Scriptpath := by
  intro c hc
  unfold execCalls at hc
  split at hc <;> simp at hc
  exact hc

/-- The tail of the provisioning operation when the retry count is positive and
the store is scripted to fail that many calls of `Create`: after the `Create`
calls it records the `ProvisioningFailed` warning on the claim and makes one
deallocation call, which succeeds; the store keeps its records. -/
theorem saveVolume_fail (ctrl : iscsiController) (claim : PersistentVolumeClaim)
    (v : PersistentVolume) (w : World) (hN : 0 < ctrl.createProvisionedPVRetryCount)
    (hfail : ∀ i, i < ctrl.createProvisionedPVRetryCount.toNat →
      ∃ e, w.createFaults[i]? = some (some e)) :
    (saveVolume ctrl claim v w).panic = none ∧
    (saveVolume ctrl claim v w).world.volumes = w.volumes ∧
    ∃ l err, (saveVolume ctrl claim v w).world.log = w.log ++ (l ++
        [Call.event (Subject.claim claim) EventTypeWarning "ProvisioningFailed"
          (Message.sprintf
            "Error creating provisioned PV object for claim %s: %v. Deleting the volume."
            [claimToClaimKey claim, err]), Call.dealloc v none]) ∧
      (∀ c ∈ l, c = Call.storeCreate v ∨ c = Call.sleep) ∧
      (l.filter Call.isCreate).length = ctrl.createProvisionedPVRetryCount.toNat := by
  obtain ⟨l, h1, h2, h3, h4, h5⟩ :=
    createLoop_fail v ctrl.createProvisionedPVRetryCount.toNat w none hfail
  obtain ⟨m, hm⟩ : ∃ m, ctrl.createProvisionedPVRetryCount.toNat = m + 1 :=
    ⟨ctrl.createProvisionedPVRetryCount.toNat - 1, by omega⟩
  obtain ⟨err, herr⟩ := h5 (by omega)
  unfold saveVolume
  rcases hC : createLoop v ctrl.createProvisionedPVRetryCount.toNat w none with ⟨w3, r⟩
  rw [hC] at h1 h4 herr
  simp only at h1 h4 herr
  subst herr
  dsimp only
  rw [hm, deleteLoop_succ]
  refine ⟨rfl, ?_, l, err, ?_, h2, ?_⟩
  · simpa [recordEvent, World.logCall] using h4
  · simp [recordEvent, World.logCall, h1]
  · rw [← hm]
    exact h3

/-! ## The deletion operation -/

/-- The predicate `shouldDelete` reads the world through `os.Stat` only. -/
theorem shouldDelete_congr (ctrl : iscsiController) (w w2 : World) (volume : PersistentVolume)
    (h : w2.stat = w.stat) : shouldDelete ctrl w2 volume = shouldDelete ctrl w volume := by
  unfold shouldDelete
  rw [h]

/-- C7: `deleteVolumeOperation` calls the backend deallocation, or `Delete` on
the store, or changes the records of the store, only if the volume was
fetched again by name and `shouldDelete` is true of the fetched volume; when
the fetch fails, or `shouldDelete` is false of the fetched volume, the only
call of the run is the fetch: no deallocation, no `Delete`, no event, and the
records of the store are as before. -/
theorem deleteVolumeOperation_guard (ctrl : iscsiController) (volume : PersistentVolume)
    (w : World) :
    (∀ e, (PersistentVolumes.Get w volume.ObjectMeta.Name).2 = Except.error e →
      newCalls w (deleteVolumeOperation ctrl volume w).world
        = [Call.storeGet volume.ObjectMeta.Name] ∧
      (deleteVolumeOperation ctrl volume w).world.volumes = w.volumes ∧
      (deleteVolumeOperation ctrl volume w).panic = none) ∧
    (∀ fresh, (PersistentVolumes.Get w volume.ObjectMeta.Name).2 = Except.ok fresh →
      shouldDelete ctrl w fresh = false →
      newCalls w (deleteVolumeOperation ctrl volume w).world
        = [Call.storeGet volume.ObjectMeta.Name] ∧
      (deleteVolumeOperation ctrl volume w).world.volumes = w.volumes ∧
      (deleteVolumeOperation ctrl volume w).panic = none) ∧
    ((∃ c ∈ newCalls w (deleteVolumeOperation ctrl volume w).world,
        c.isDealloc = true ∨ c.isStoreDelete = true ∨ c.isEvent = true) ∨
      (deleteVolumeOperation ctrl volume w).world.volumes ≠ w.volumes →
      ∃ fresh, (PersistentVolumes.Get w volume.ObjectMeta.Name).2 = Except.ok fresh ∧
        shouldDelete ctrl w fresh = true) := by
  have hfst := Get_fst w volume.ObjectMeta.Name
  have hquiet : ∀ W1 : World,
      W1 = { w with getFaults := w.getFaults.tail,
                    log := w.log ++ [Call.storeGet volume.ObjectMeta.Name] } →
      deleteVolumeOperation ctrl volume w = { world := W1 } →
      newCalls w (deleteVolumeOperation ctrl volume w).world
          = [Call.storeGet volume.ObjectMeta.Name] ∧
        (deleteVolumeOperation ctrl volume w).world.volumes = w.volumes ∧
        (deleteVolumeOperation ctrl volume w).panic = none := by
    intro W1 hW1 hrun
    rw [hrun, hW1]
    exact ⟨newCalls_of_log _ _ _ rfl, rfl, rfl⟩
  have hno : newCalls w (deleteVolumeOperation ctrl volume w).world
        = [Call.storeGet volume.ObjectMeta.Name] ∧
      (deleteVolumeOperation ctrl volume w).world.volumes = w.volumes →
      ¬ ((∃ c ∈ newCalls w (deleteVolumeOperation ctrl volume w).world,
        c.isDealloc = true ∨ c.isStoreDelete = true ∨ c.isEvent = true) ∨
      (deleteVolumeOperation ctrl volume w).world.volumes ≠ w.volumes) := by
    intro ⟨h1, h2⟩ hc
    rcases hc with ⟨c, hc, hk⟩ | hc
    · rw [h1] at hc
      simp only [List.mem_singleton] at hc
      subst hc
      simp [Call.isDealloc, Call.isStoreDelete, Call.isEvent] at hk
    · exact hc h2
  rcases hG : PersistentVolumes.Get w volume.ObjectMeta.Name with ⟨W1, r⟩
  rw [hG] at hfst
  simp only at hfst
  cases r with
  | error e =>
    have hrun : deleteVolumeOperation ctrl volume w = { world := W1 } := by
      unfold deleteVolumeOperation
      simp only [hG]
    have hq := hquiet W1 hfst hrun
    refine ⟨fun _ _ => hq, ?_, ?_⟩
    · intro fresh hf
      cases hf
    · intro hc
      exact absurd hc (hno ⟨hq.1, hq.2.1⟩)
  | ok fresh =>
    have hsd : shouldDelete ctrl W1 fresh = shouldDelete ctrl w fresh :=
      shouldDelete_congr ctrl w W1 fresh (by rw [hfst])
    cases hs : shouldDelete ctrl w fresh with
    | false =>
      have hrun : deleteVolumeOperation ctrl volume w = { world := W1 } := by
        unfold deleteVolumeOperation
        simp only [hG, hsd, hs]
        rfl
      have hq := hquiet W1 hfst hrun
      refine ⟨?_, ?_, ?_⟩
      · intro e he
        cases he
      · intro f _ _
        exact hq
      · intro hc
        exact absurd hc (hno ⟨hq.1, hq.2.1⟩)
    | true =>
      refine ⟨?_, ?_, ?_⟩
      · intro e he
        cases he
      · intro f hf hfalse
        simp only [Except.ok.injEq] at hf
        subst hf
        rw [hs] at hfalse
        cases hfalse
      · intro _
        exact ⟨fresh, rfl, hs⟩

/-- C7 at a released volume that the controller provisioned: with the backend
artifact absent the run makes the fetch and nothing else; with the artifact
present it goes on to one deallocation and the `Delete` of the record. -/
theorem deleteVolumeOperation_guard_witness :
    (newCalls (exampleStore StatResult.notExist)
        (deleteVolumeOperation exampleController exampleVolume
          (exampleStore StatResult.notExist)).world = [Call.storeGet "pvc-u1"] ∧
      (deleteVolumeOperation exampleController exampleVolume
          (exampleStore StatResult.notExist)).world.volumes = [exampleVolume] ∧
      (deleteVolumeOperation exampleController exampleVolume
          (exampleStore StatResult.notExist)).panic = none) ∧
    (newCalls (exampleStore StatResult.present)
        (deleteVolumeOperation exampleController exampleVolume
          (exampleStore StatResult.present)).world
        = [Call.storeGet "pvc-u1", Call.dealloc exampleVolume none, Call.storeDelete "pvc-u1"] ∧
      (deleteVolumeOperation exampleController exampleVolume
          (exampleStore StatResult.present)).world.volumes = []) :=
  ⟨(deleteVolumeOperation_guard exampleController exampleVolume
      (exampleStore StatResult.notExist)).2.1 exampleVolume rfl (by decide),
    by decide⟩
/-! ## Running the provisioning operation twice -/

/-- A volume that `provision` returns has the name of the options. -/
theorem provision_name (ctrl : iscsiController) (o : VolumeOptions) (w : World)
    (pv : PersistentVolume) (h : (provision ctrl o w).2 = Go.ret (Except.ok pv)) :
    pv.ObjectMeta.Name = o.PVName := by
  unfold provision at h
  rcases hc : createVolume ctrl o.PVName w with ⟨w1, (⟨s, p, (_ | e)⟩ | msg)⟩
  · rw [hc] at h
    simp only [Go.ret.injEq, Except.ok.injEq] at h
    rw [← h]
    rfl
  · rw [hc] at h
    simp at h
  · rw [hc] at h
    simp at h

/-- The records of the store after `provisionClaimOperation`: the records it
had, with at most one new record, named `"pvc-" ++ UID`, added when no record
had that name; the scripted faults of `Get` after the run are those that the
lookup left. -/
theorem provisionClaimOperation_volumes (ctrl : iscsiController) (claim : PersistentVolumeClaim)
    (w : World) :
    ((provisionClaimOperation ctrl claim w).world.volumes = w.volumes ∨
      ∃ v, (provisionClaimOperation ctrl claim w).world.volumes = w.volumes ++ [v] ∧
        v.ObjectMeta.Name = "pvc-" ++ claim.ObjectMeta.UID ∧
        ∀ x ∈ w.volumes, x.ObjectMeta.Name ≠ "pvc-" ++ claim.ObjectMeta.UID) := by
  have hfst := Get_fst w (getProvisionedVolumeNameForClaim ctrl claim)
  rcases hG : PersistentVolumes.Get w (getProvisionedVolumeNameForClaim ctrl claim) with ⟨W1, r⟩
  have hG1 : (PersistentVolumes.Get w (getProvisionedVolumeNameForClaim ctrl claim)).1 = W1 := by
    rw [hG]
  have hG2 : (PersistentVolumes.Get w (getProvisionedVolumeNameForClaim ctrl claim)).2 = r := by
    rw [hG]
  rw [hG1] at hfst
  have hv1 : W1.volumes = w.volumes := by rw [hfst]
  cases r with
  | ok v =>
    rw [provisionClaimOperation_found ctrl claim w v hG2, hG1]
    exact Or.inl hv1
  | error e =>
    cases href : W1.getReference claim with
    | error e2 =>
      have href2 : w.getReference claim = Except.error e2 := by rw [← href, hfst]
      rw [provisionClaimOperation_noref ctrl claim w e e2 hG2 href2, hG1]
      exact Or.inl hv1
    | ok ref =>
      unfold provisionClaimOperation
      simp only [hG, href]
      split
      · exact Or.inl hv1
      · split
        · exact Or.inl hv1
        · split
          · rename_i storageClass _
            have hp1 := provision_fst ctrl
              (volumeOptions claim (getProvisionedVolumeNameForClaim ctrl claim) storageClass) W1
            have hp2 := provision_name ctrl
              (volumeOptions claim (getProvisionedVolumeNameForClaim ctrl claim) storageClass) W1
            have hcv := createVolume_world ctrl
              (volumeOptions claim (getProvisionedVolumeNameForClaim ctrl claim) storageClass).PVName
              W1
            rcases hP : provision ctrl
              (volumeOptions claim (getProvisionedVolumeNameForClaim ctrl claim) storageClass) W1
              with ⟨w2, r2⟩
            rw [hP] at hp1 hp2
            simp only at hp1 hp2
            have hv2 : w2.volumes = w.volumes := by rw [hp1, hcv.2.1, hv1]
            cases r2 with
            | panic msg => exact Or.inl hv2
            | ret r3 =>
              cases r3 with
              | error err => exact Or.inl hv2
              | ok pv =>
                have hname := hp2 pv rfl
                obtain ⟨_, l, _, _, _, _, hvol, _⟩ := saveVolume_spec ctrl claim
                  (annotateVolume ctrl (getClaimClass claim) ref pv) w2
                dsimp only
                rcases hvol with hvol | ⟨hvol, habs⟩
                · left
                  rw [hvol, hv2]
                · right
                  refine ⟨_, by rw [hvol, hv2], ?_, ?_⟩
                  · rw [(annotateVolume_props ctrl (getClaimClass claim) ref pv).1, hname]
                    rfl
                  · intro x hx
                    have := habs x (by rw [hv2]; exact hx)
                    rw [(annotateVolume_props ctrl (getClaimClass claim) ref pv).1, hname] at this
                    exact this
          · exact Or.inl hv1

/-- C4, as stated, fails: for a claim whose class is not in the cache two runs
in sequence leave no record named `"pvc-" ++ UID`, and the second run does not
find the volume; and when the store fails the lookup of the second run, that
run invokes the backend allocation and calls `Create` again. -/
theorem provisionClaimOperation_twice_counterexample :
    ((provisionClaimOperation exampleController
        { exampleClaim with ObjectMeta :=
            { exampleClaim.ObjectMeta with Annotations := some [(annClass, "missing")] } }
        (provisionClaimOperation exampleController
          { exampleClaim with ObjectMeta :=
              { exampleClaim.ObjectMeta with Annotations := some [(annClass, "missing")] } }
          (exampleWorld [])).world).world.volumes.map (fun v => v.ObjectMeta.Name)).count "pvc-u1"
      = 0 ∧
    (newCalls
        (provisionClaimOperation exampleController exampleClaim
          { exampleWorld [{ stdout := "10.0.0.1:3260 iqn.2016-04.test:vol\n", err := none },
              { stdout := "10.0.0.1:3260 iqn.2016-04.test:vol2\n", err := none }] with
            getFaults := [none, some "connection refused"] }).world
        (provisionClaimOperation exampleController exampleClaim
          (provisionClaimOperation exampleController exampleClaim
            { exampleWorld [{ stdout := "10.0.0.1:3260 iqn.2016-04.test:vol\n", err := none },
                { stdout := "10.0.0.1:3260 iqn.2016-04.test:vol2\n", err := none }] with
              getFaults := [none, some "connection refused"] }).world).world).map
        (fun c => (c.isExec, c.isCreate))
      = [(false, false), (true, false),
          (false, true), (false, false), (false, true), (false, false), (false, true),
          (false, false), (false, true), (false, false), (false, true), (false, false),
          (false, false), (false, false)] := by
  decide

/-- C4, amended: for a store whose records have distinct names, when the
first run of `provisionClaimOperation` leaves a record named `"pvc-" ++ UID` in
the store and the store answers the lookup of the second run from its
records, the second run for the same claim makes the lookup and no other call
(no backend allocation, no `Create`), does not panic and leaves the records
as they were, exactly one of them named `"pvc-" ++ UID`. -/
theorem provisionClaimOperation_twice (ctrl : iscsiController) (claim : PersistentVolumeClaim)
    (w : World)
    (hkeys : (w.volumes.map (fun v => v.ObjectMeta.Name)).Nodup)
    (hsaved : ∃ v ∈ (provisionClaimOperation ctrl claim w).world.volumes,
      v.ObjectMeta.Name = "pvc-" ++ claim.ObjectMeta.UID)
    (hget : nextFault (provisionClaimOperation ctrl claim w).world.getFaults = none) :
    newCalls (provisionClaimOperation ctrl claim w).world
        (provisionClaimOperation ctrl claim (provisionClaimOperation ctrl claim w).world).world
      = [Call.storeGet ("pvc-" ++ claim.ObjectMeta.UID)] ∧
    (provisionClaimOperation ctrl claim (provisionClaimOperation ctrl claim w).world).panic
      = none ∧
    (provisionClaimOperation ctrl claim (provisionClaimOperation ctrl claim w).world).world.volumes
      = (provisionClaimOperation ctrl claim w).world.volumes ∧
    ((provisionClaimOperation ctrl claim
        (provisionClaimOperation ctrl claim w).world).world.volumes.map
      (fun v => v.ObjectMeta.Name)).count ("pvc-" ++ claim.ObjectMeta.UID) = 1 := by
  have hinv := provisionClaimOperation_volumes ctrl claim w
  generalize (provisionClaimOperation ctrl claim w).world = w1 at hinv hsaved hget ⊢
  have hnodup : (w1.volumes.map (fun v => v.ObjectMeta.Name)).Nodup := by
    rcases hinv with h | ⟨v, h, hn, habs⟩
    · rw [h]
      exact hkeys
    · rw [h, List.map_append]
      apply List.Nodup.append hkeys (List.nodup_singleton _)
      intro a ha hb
      simp only [List.map_cons, List.map_nil, List.mem_singleton] at hb
      rw [List.mem_map] at ha
      obtain ⟨x, hx, hxa⟩ := ha
      exact habs x hx (by rw [hxa, hb, hn])
  obtain ⟨v, hv⟩ := Get_present w1 (getProvisionedVolumeNameForClaim ctrl claim) hget hsaved
  have hrun := provisionClaimOperation_found ctrl claim w1 v hv
  have hfst := Get_fst w1 (getProvisionedVolumeNameForClaim ctrl claim)
  rw [hrun, hfst]
  refine ⟨newCalls_of_log _ _ _ rfl, rfl, rfl, ?_⟩
  apply List.count_eq_one_of_mem hnodup
  obtain ⟨x, hx, hxn⟩ := hsaved
  exact List.mem_map.mpr ⟨x, hx, hxn⟩

/-- C4, amended, at the claim `ns/pvc1` and an empty store: the first run
saves the volume `pvc-u1`, the second makes the lookup only. -/
theorem provisionClaimOperation_twice_witness :
    newCalls
        (provisionClaimOperation exampleController exampleClaim
          (exampleWorld [{ stdout := "10.0.0.1:3260 iqn.2016-04.test:vol\n", err := none }])).world
        (provisionClaimOperation exampleController exampleClaim
          (provisionClaimOperation exampleController exampleClaim
            (exampleWorld [{ stdout := "10.0.0.1:3260 iqn.2016-04.test:vol\n", err := none }])
            ).world).world
      = [Call.storeGet "pvc-u1"] ∧
    ((provisionClaimOperation exampleController exampleClaim
        (provisionClaimOperation exampleController exampleClaim
          (exampleWorld [{ stdout := "10.0.0.1:3260 iqn.2016-04.test:vol\n", err := none }])
          ).world).world.volumes.map (fun v => v.ObjectMeta.Name)).count "pvc-u1" = 1 :=
  have h := provisionClaimOperation_twice exampleController exampleClaim
    (exampleWorld [{ stdout := "10.0.0.1:3260 iqn.2016-04.test:vol\n", err := none }])
    (by decide) (by decide) (by decide)
  ⟨h.1, h.2.2.2⟩

/-! ## The annotation helpers -/

/-- C12: after `setAnnotation(obj, k, v)`, also on an object whose annotation
map is nil, `hasAnnotation(obj, k)` is true and the value stored under `k` is
`v`; for every other key, `hasAnnotation` and the value stored are as before
the call. -/
theorem setAnnotation_spec (obj : ObjectMeta) (k v : String) :
    hasAnnotation ( setAnnotation obj k v) k = true ∧
    ( setAnnotation obj k v).Annotations.get k = some v ∧
    ( setAnnotation obj k v).Annotations.index k = v ∧
    (∀ k2, k2 ≠ k →
      hasAnnotation ( setAnnotation obj k v) k2 = hasAnnotation obj k2 ∧
      ( setAnnotation obj k v).Annotations.get k2 = obj.Annotations.get k2 ∧
      ( setAnnotation obj k v).Annotations.index k2 = obj.Annotations.index k2) := by
  have hsame : ( setAnnotation obj k v).Annotations.get k = some v := by
    unfold setAnnotation
    dsimp only
    rw [GoMap.get_set_same]
  have hother : ∀ k2, k2 ≠ k →
      ( setAnnotation obj k v).Annotations.get k2 = obj.Annotations.get k2 := by
    intro k2 hk
    unfold setAnnotation
    dsimp only
    rw [GoMap.get_set_other _ _ _ _ hk]
    cases obj.Annotations <;> rfl
  refine ⟨?_, hsame, ?_, ?_⟩
  · unfold hasAnnotation
    rw [hsame]
    rfl
  · unfold GoMap.index
    rw [hsame]
    rfl
  · intro k2 hk
    refine ⟨?_, hother k2 hk, ?_⟩
    · unfold hasAnnotation
      rw [hother k2 hk]
    · unfold GoMap.index
      rw [hother k2 hk]

/-- C12 on an object with a nil annotation map and on one that has the key. -/
theorem setAnnotation_spec_witness :
    hasAnnotation ( setAnnotation { Name := "pvc-u1" } annClass "fast") annClass = true ∧
    ( setAnnotation { Name := "pvc-u1" } annClass "fast").Annotations.get annClass = some "fast" ∧
    ( setAnnotation exampleVolume.ObjectMeta annDynamicallyProvisioned "other").Annotations.get
      annDynamicallyProvisioned = some "other" ∧
    hasAnnotation ( setAnnotation exampleVolume.ObjectMeta annClass "fast")
      annDynamicallyProvisioned = true :=
  ⟨(setAnnotation_spec { Name := "pvc-u1" } annClass "fast").1,
    (setAnnotation_spec { Name := "pvc-u1" } annClass "fast").2.1,
    (setAnnotation_spec exampleVolume.ObjectMeta annDynamicallyProvisioned "other").2.1,
    ((setAnnotation_spec exampleVolume.ObjectMeta annClass "fast").2.2.2
      annDynamicallyProvisioned (by decide)).1.trans (by decide)⟩
/-! ## The loop that saves the volume -/

/-- The call `Create` returns no error exactly when the store accepts it. -/
theorem Create_result (w : World) (v : PersistentVolume) :
    (PersistentVolumes.Create w v).2 = none ↔ createSucceeds w v 0 = true := by
  unfold PersistentVolumes.Create createSucceeds
  dsimp only
  rw [List.drop_zero]
  cases nextFault w.createFaults with
  | some e => simp
  | none =>
    cases hany : w.volumes.any (fun x => x.ObjectMeta.Name == v.ObjectMeta.Name) with
    | true => simp
    | false => simp

/-- After a rejected `Create` and the sleep, the store accepts call number `i`
exactly when it would have accepted call number `i + 1` before. -/
theorem createSucceeds_shift (w w1 : World) (v : PersistentVolume) (i : Nat)
    (hf : w1.createFaults = w.createFaults.tail) (hv : w1.volumes = w.volumes) :
    createSucceeds w1 v i = createSucceeds w v (i + 1) := by
  unfold createSucceeds
  rw [hf, hv]
  cases w.createFaults with
  | nil => simp
  | cons f rest => simp

/-- The number of `Create` calls of the loop that saves the volume: the retry
count when the store accepts none of that many calls, and the position of the
first accepted call otherwise, after which `err` is nil. -/
theorem createLoop_count (v : PersistentVolume) :
    ∀ (n : Nat) (w : World) (err : Option String),
      ∃ l, (createLoop v n w err).1.log = w.log ++ l ∧
        ((∀ i, i < n → createSucceeds w v i = false) → (l.filter Call.isCreate).length = n) ∧
        (∀ i, i < n → createSucceeds w v i = true →
          (∀ j, j < i → createSucceeds w v j = false) →
          (l.filter Call.isCreate).length = i + 1 ∧ (createLoop v n w err).2 = none ∧
          l.getLast? = some (Call.storeCreate v))
  | 0, w, err => ⟨[], by simp [createLoop], by simp, by
      intro i hi
      omega⟩
  | n + 1, w, err => by
    have hlog := Create_log w v
    have hfl := (Create_faults w v).1
    have hvol := Create_volumes w v
    have hres := Create_result w v
    rcases hC : PersistentVolumes.Create w v with ⟨w1, r⟩
    rw [hC] at hlog hfl hvol hres
    simp only at hlog hfl hvol hres
    cases r with
    | none =>
      have h0 : createSucceeds w v 0 = true := hres.mp rfl
      rw [createLoop_succ_ok v n w w1 err hC]
      refine ⟨[Call.storeCreate v], hlog, ?_, ?_⟩
      · intro hall
        have := hall 0 (Nat.succ_pos n)
        rw [h0] at this
        cases this
      · intro i _ _ hbefore
        have hi0 : i = 0 := by
          by_contra hne
          have := hbefore 0 (Nat.pos_of_ne_zero hne)
          rw [h0] at this
          cases this
        subst hi0
        exact ⟨by simp [Call.isCreate], rfl, rfl⟩
    | some e =>
      have h0 : createSucceeds w v 0 = false := by
        cases hc : createSucceeds w v 0 with
        | false => rfl
        | true => have := hres.mpr hc; cases this
      have hv1 : w1.volumes = w.volumes := by
        rcases hvol with ⟨h, _, _⟩ | ⟨_, h⟩
        · cases h
        · exact h
      have hshift : ∀ i, createSucceeds (w1.logCall Call.sleep) v i = createSucceeds w v (i + 1) :=
        fun i => createSucceeds_shift w (w1.logCall Call.sleep) v i hfl hv1
      rw [createLoop_succ_err v n w w1 err e hC]
      obtain ⟨l, h1, h2, h3⟩ := createLoop_count v n (w1.logCall Call.sleep) (some e)
      rw [(logCall_fields w1 Call.sleep).1, hlog] at h1
      refine ⟨Call.storeCreate v :: Call.sleep :: l, ?_, ?_, ?_⟩
      · rw [h1]
        simp
      · intro hall
        have := h2 (fun i hi => by rw [hshift i]; exact hall (i + 1) (Nat.succ_lt_succ hi))
        simp [List.filter_cons, Call.isCreate, this]
      · intro i hi hok hbefore
        cases i with
        | zero =>
          rw [h0] at hok
          cases hok
        | succ m =>
          obtain ⟨hc, hr, hlast⟩ := h3 m (Nat.lt_of_succ_lt_succ hi) (by rw [hshift m]; exact hok)
            (fun j hj => by rw [hshift j]; exact hbefore (j + 1) (Nat.succ_lt_succ hj))
          refine ⟨by simp [List.filter_cons, Call.isCreate, hc], hr, ?_⟩
          cases l with
          | nil => simp at hc
          | cons c cs =>
            rw [List.getLast?_cons_cons, List.getLast?_cons_cons]
            exact hlast

/-- C11: for every retry count `n` and every way the store answers, the loop of
`provisionClaimOperation` that saves the volume calls `Create` exactly
`min n k` times when `k` is the position, counted from 1, of the first call
that the store accepts, and exactly `n` times when the store accepts none of
the first `n` calls; so it never calls `Create` more than `n` times (5 for a
controller built by `newiscsiController`), and it never calls `Create` again
after a call that the store accepted: that call is then the last call of the
loop. -/
theorem createLoop_calls (v : PersistentVolume) (n : Nat) (w : World) (err : Option String) :
    (∀ k, 1 ≤ k → createSucceeds w v (k - 1) = true →
      (∀ j, j < k - 1 → createSucceeds w v j = false) →
      ((newCalls w (createLoop v n w err).1).filter Call.isCreate).length = min n k) ∧
    ((∀ i, i < n → createSucceeds w v i = false) →
      ((newCalls w (createLoop v n w err).1).filter Call.isCreate).length = n) ∧
    ((newCalls w (createLoop v n w err).1).filter Call.isCreate).length ≤ n ∧
    (∀ i, i < n → createSucceeds w v i = true →
      ((newCalls w (createLoop v n w err).1).filter Call.isCreate).length ≤ i + 1) ∧
    (∀ i, i < n → createSucceeds w v i = true →
      (∀ j, j < i → createSucceeds w v j = false) →
      (newCalls w (createLoop v n w err).1).getLast? = some (Call.storeCreate v) ∧
      (createLoop v n w err).2 = none) ∧
    (∀ (name : String) (config : ProvisionerConfig),
      ((newCalls w (createLoop v
        (newiscsiController name config).createProvisionedPVRetryCount.toNat w err).1).filter
        Call.isCreate).length ≤ 5) := by
  have key : ∀ m : Nat,
      ((∀ i, i < m → createSucceeds w v i = false) →
        ((newCalls w (createLoop v m w err).1).filter Call.isCreate).length = m) ∧
      (∀ i, i < m → createSucceeds w v i = true →
        (∀ j, j < i → createSucceeds w v j = false) →
        ((newCalls w (createLoop v m w err).1).filter Call.isCreate).length = i + 1 ∧
        (newCalls w (createLoop v m w err).1).getLast? = some (Call.storeCreate v) ∧
        (createLoop v m w err).2 = none) := by
    intro m
    obtain ⟨l, h1, h2, h3⟩ := createLoop_count v m w err
    rw [newCalls_of_log w _ l h1]
    exact ⟨h2, fun i hi hok hb => ⟨(h3 i hi hok hb).1, (h3 i hi hok hb).2.2, (h3 i hi hok hb).2.1⟩⟩
  have first : ∀ m : Nat, (∃ i, i < m ∧ createSucceeds w v i = true) →
      ∃ i, i < m ∧ createSucceeds w v i = true ∧ ∀ j, j < i → createSucceeds w v j = false := by
    intro m
    induction m with
    | zero =>
      intro ⟨i, hi, _⟩
      omega
    | succ m ih =>
      intro ⟨i, hi, hok⟩
      by_cases hex : ∃ i, i < m ∧ createSucceeds w v i = true
      · obtain ⟨a, ha, hr⟩ := ih hex
        exact ⟨a, Nat.lt_succ_of_lt ha, hr⟩
      · have him : i = m := by
          by_contra hne
          exact hex ⟨i, by omega, hok⟩
        subst him
        refine ⟨i, hi, hok, ?_⟩
        intro j hj
        cases hc : createSucceeds w v j with
        | false => rfl
        | true => exact absurd ⟨j, hj, hc⟩ hex
  have bound : ∀ m : Nat,
      ((newCalls w (createLoop v m w err).1).filter Call.isCreate).length ≤ m := by
    intro m
    by_cases hex : ∃ i, i < m ∧ createSucceeds w v i = true
    · obtain ⟨a, ha, hok, hb⟩ := first m hex
      rw [((key m).2 a ha hok hb).1]
      omega
    · rw [(key m).1 (fun i hi => by
        cases hc : createSucceeds w v i with
        | false => rfl
        | true => exact absurd ⟨i, hi, hc⟩ hex)]
  refine ⟨?_, (key n).1, bound n, ?_, ?_, ?_⟩
  · intro k hk hok hb
    by_cases hkn : k ≤ n
    · rw [((key n).2 (k - 1) (by omega) hok hb).1]
      omega
    · rw [(key n).1 (fun i hi => hb i (by omega))]
      omega
  · intro i hi hok
    obtain ⟨a, ha, hoka, hb⟩ := first (i + 1) ⟨i, Nat.lt_succ_self i, hok⟩
    rw [((key n).2 a (by omega) hoka hb).1]
    omega
  · intro i hi hok hb
    exact ⟨((key n).2 i hi hok hb).2.1, ((key n).2 i hi hok hb).2.2⟩
  · intro name config
    exact bound 5

/-- C11 at a store that rejects two calls of `Create` and accepts the third:
with retry count 5 the loop calls `Create` three times, with retry count 2
twice, with retry count 0 not at all. -/
theorem createLoop_calls_witness :
    ((newCalls { exampleWorld [] with createFaults := [some "timeout", some "timeout", none] }
        (createLoop exampleVolume 5
          { exampleWorld [] with createFaults := [some "timeout", some "timeout", none] }
          none).1).filter Call.isCreate).length = min 5 3 ∧
    ((newCalls { exampleWorld [] with createFaults := [some "timeout", some "timeout", none] }
        (createLoop exampleVolume 2
          { exampleWorld [] with createFaults := [some "timeout", some "timeout", none] }
          none).1).filter Call.isCreate).length = min 2 3 ∧
    ((newCalls { exampleWorld [] with createFaults := [some "timeout", some "timeout", none] }
        (createLoop exampleVolume 0
          { exampleWorld [] with createFaults := [some "timeout", some "timeout", none] }
          none).1).filter Call.isCreate).length = 0 :=
  ⟨(createLoop_calls exampleVolume 5
      { exampleWorld [] with createFaults := [some "timeout", some "timeout", none] } none).1 3
      (by decide) (by decide) (by decide),
    (createLoop_calls exampleVolume 2
      { exampleWorld [] with createFaults := [some "timeout", some "timeout", none] } none).1 3
      (by decide) (by decide) (by decide),
    (createLoop_calls exampleVolume 0
      { exampleWorld [] with createFaults := [some "timeout", some "timeout", none] } none).2.1
      (by decide)⟩
/-! ## The provisioning operation when the volume cannot be saved -/

/-- The store rejects call number `i` when a fault is scripted for it or a
record has the name of the volume. -/
theorem createSucceeds_rejected (w : World) (v : PersistentVolume) (i : Nat)
    (h : (∃ e, nextFault (w.createFaults.drop i) = some e) ∨
      ∃ x ∈ w.volumes, x.ObjectMeta.Name = v.ObjectMeta.Name) :
    createSucceeds w v i = false := by
  unfold createSucceeds
  rcases h with ⟨e, he⟩ | ⟨x, hx, hn⟩
  · rw [he]
    rfl
  · have hany : w.volumes.any (fun y => y.ObjectMeta.Name == v.ObjectMeta.Name) = true := by
      rw [List.any_eq_true]
      exact ⟨x, hx, by simp [hn]⟩
    rw [hany]
    simp

/-- Whether the store accepts a call depends on its scripted faults of `Create`
and its records only. -/
theorem createSucceeds_congr (w w2 : World) (v : PersistentVolume) (i : Nat)
    (hf : w2.createFaults = w.createFaults) (hv : w2.volumes = w.volumes) :
    createSucceeds w2 v i = createSucceeds w v i := by
  unfold createSucceeds
  rw [hf, hv]

/-- The loop that saves the volume, when the store rejects the next `n` calls
of `Create`, for whatever reason: it makes `n` calls of `Create`, the store
keeps its records, and with `n` positive `err` is not nil after the loop. -/
theorem createLoop_rejected (v : PersistentVolume) :
    ∀ (n : Nat) (w : World) (err : Option String),
      (∀ i, i < n → createSucceeds w v i = false) →
      ∃ l, (createLoop v n w err).1.log = w.log ++ l ∧
        (∀ c ∈ l, c = Call.storeCreate v ∨ c = Call.sleep) ∧
        (l.filter Call.isCreate).length = n ∧
        (createLoop v n w err).1.volumes = w.volumes ∧
        (0 < n → ∃ e, (createLoop v n w err).2 = some e)
  | 0, w, err, _ => ⟨[], by simp [createLoop], by simp, by simp, rfl, by simp⟩
  | n + 1, w, err, hf => by
    have h0 := hf 0 (Nat.succ_pos n)
    have hres := Create_result w v
    have hlog := Create_log w v
    have hfl := (Create_faults w v).1
    have hvol := Create_volumes w v
    rcases hC : PersistentVolumes.Create w v with ⟨w1, r⟩
    rw [hC] at hlog hfl hvol hres
    simp only at hlog hfl hvol hres
    cases r with
    | none =>
      have := hres.mp rfl
      rw [h0] at this
      cases this
    | some e0 =>
      rw [createLoop_succ_err v n w w1 err e0 hC]
      have hv1 : w1.volumes = w.volumes := by
        rcases hvol with ⟨h, _, _⟩ | ⟨_, h⟩
        · cases h
        · exact h
      have hf2 : ∀ i, i < n → createSucceeds (w1.logCall Call.sleep) v i = false := by
        intro i hi
        rw [createSucceeds_shift w (w1.logCall Call.sleep) v i hfl hv1]
        exact hf (i + 1) (Nat.succ_lt_succ hi)
      obtain ⟨l, h1, h2, h3, h4, h5⟩ :=
        createLoop_rejected v n (w1.logCall Call.sleep) (some e0) hf2
      rw [(logCall_fields w1 Call.sleep).1, hlog] at h1
      rw [(logCall_fields w1 Call.sleep).2.1, hv1] at h4
      refine ⟨Call.storeCreate v :: Call.sleep :: l, ?_, ?_, ?_, h4, ?_⟩
      · rw [h1]
        simp
      · intro c hc
        simp only [List.mem_cons] at hc
        rcases hc with hc | hc | hc
        · exact Or.inl hc
        · exact Or.inr hc
        · exact h2 c hc
      · simp [List.filter_cons, Call.isCreate, h3]
      · intro _
        cases n with
        | zero => exact ⟨e0, by simp [createLoop]⟩
        | succ m => exact h5 (Nat.succ_pos m)

/-- The tail of the provisioning operation when the retry count is positive and
the store rejects that many calls of `Create`: after the `Create` calls it
records the `ProvisioningFailed` warning on the claim and makes one
deallocation call, which succeeds; the store keeps its records. -/
theorem saveVolume_rejected (ctrl : iscsiController) (claim : PersistentVolumeClaim)
    (v : PersistentVolume) (w : World) (hN : 0 < ctrl.createProvisionedPVRetryCount)
    (hfail : ∀ i, i < ctrl.createProvisionedPVRetryCount.toNat → createSucceeds w v i = false) :
    (saveVolume ctrl claim v w).panic = none ∧
    (saveVolume ctrl claim v w).world.volumes = w.volumes ∧
    ∃ l err, (saveVolume ctrl claim v w).world.log = w.log ++ (l ++
        [Call.event (Subject.claim claim) EventTypeWarning "ProvisioningFailed"
          (Message.sprintf
            "Error creating provisioned PV object for claim %s: %v. Deleting the volume."
            [claimToClaimKey claim, err]), Call.dealloc v none]) ∧
      (∀ c ∈ l, c = Call.storeCreate v ∨ c = Call.sleep) ∧
      (l.filter Call.isCreate).length = ctrl.createProvisionedPVRetryCount.toNat := by
  obtain ⟨l, h1, h2, h3, h4, h5⟩ :=
    createLoop_rejected v ctrl.createProvisionedPVRetryCount.toNat w none hfail
  obtain ⟨m, hm⟩ : ∃ m, ctrl.createProvisionedPVRetryCount.toNat = m + 1 :=
    ⟨ctrl.createProvisionedPVRetryCount.toNat - 1, by omega⟩
  obtain ⟨err, herr⟩ := h5 (by omega)
  unfold saveVolume
  rcases hC : createLoop v ctrl.createProvisionedPVRetryCount.toNat w none with ⟨w3, r⟩
  rw [hC] at h1 h4 herr
  simp only at h1 h4 herr
  subst herr
  dsimp only
  rw [hm, deleteLoop_succ]
  refine ⟨rfl, ?_, l, err, ?_, h2, ?_⟩
  · simpa [recordEvent, World.logCall] using h4
  · simp [recordEvent, World.logCall, h1]
  · rw [← hm]
    exact h3

/-- C5, as stated, fails: when the store holds a record named `pvc-u1` and
fails the lookup of step 1, the backend allocation succeeds, all five calls of
`Create` are rejected, the `ProvisioningFailed` warning is recorded and the
deallocation is called once, and a volume record named `pvc-u1` is in the
store after the run. -/
theorem provisionClaimOperation_save_fails_counterexample :
    (createVolume exampleController "pvc-u1" exampleUnreachableStore).2
      = Go.ret ("10.0.0.1:3260", "iqn.2016-04.test:vol", none) ∧
    (newCalls exampleUnreachableStore
        (provisionClaimOperation exampleController exampleClaim exampleUnreachableStore).world).map
        (fun c => (c.isCreate, Call.isWarningOn exampleClaim "ProvisioningFailed" c, c.isDealloc))
      = [(false, false, false), (false, false, false),
          (true, false, false), (false, false, false), (true, false, false), (false, false, false),
          (true, false, false), (false, false, false), (true, false, false), (false, false, false),
          (true, false, false), (false, false, false),
          (false, true, false), (false, false, true)] ∧
    (provisionClaimOperation exampleController exampleClaim
        exampleUnreachableStore).world.volumes.map (fun v => v.ObjectMeta.Name) = ["pvc-u1"] := by
  decide

/-- C5, amended: when the lookup of step 1 reports no volume, the backend
allocation succeeds and the store rejects all `N` calls of `Create` (`N` the
controller's `createProvisionedPVRetryCount`, positive; a call is rejected by
a failure of the store or because a record named `"pvc-" ++ UID` exists),
`provisionClaimOperation` does not panic; after `N` calls of `Create` it
records the `ProvisioningFailed` warning on the claim and then calls the
backend deallocation on the volume it allocated, once, as the last call of the
run: the method `delete` returns nil, so the deallocation is attempted at
least once and at most `N` times and stops at the first success, no
deallocation attempt fails and the `ProvisioningCleanupFailed` warning is not
recorded (it is recorded exactly when `N` deallocation attempts fail); and the
run adds no record to the store: the store holds the records it held before
the run, none of them named `"pvc-" ++ UID` when none was before. -/
theorem provisionClaimOperation_save_fails (ctrl : iscsiController)
    (claim : PersistentVolumeClaim) (w : World) (sc : StorageClass) (ref : ObjectReference)
    (server path : String)
    (e : String)
    (hN : 0 < ctrl.createProvisionedPVRetryCount)
    (hget : (PersistentVolumes.Get w ("pvc-" ++ claim.ObjectMeta.UID)).2 = Except.error e)
    (href : w.getReference claim = Except.ok ref)
    (hclass : w.classes (getClaimClass claim)
      = { item := some (CacheObj.storageClass sc), found := true, err := none })
    (halloc : (createVolume ctrl ("pvc-" ++ claim.ObjectMeta.UID) w).2
      = Go.ret (server, path, none))
    (hfail : ∀ i, i < ctrl.createProvisionedPVRetryCount.toNat →
      (∃ e, nextFault (w.createFaults.drop i) = some e) ∨
      ∃ x ∈ w.volumes, x.ObjectMeta.Name = "pvc-" ++ claim.ObjectMeta.UID) :
    (provisionClaimOperation ctrl claim w).panic = none ∧
    (∃ pre message,
      newCalls w (provisionClaimOperation ctrl claim w).world = pre ++
        [Call.event (Subject.claim claim) EventTypeWarning "ProvisioningFailed" message,
          Call.dealloc
            (annotateVolume ctrl (getClaimClass claim) ref
              (provisionedVolume
                (volumeOptions claim (getProvisionedVolumeNameForClaim ctrl claim) sc) server path))
            none] ∧
      (∀ c ∈ pre, c.isEvent = false ∧ c.isDealloc = false) ∧
      ((pre.filter Call.isCreate).length : Int) = ctrl.createProvisionedPVRetryCount) ∧
    ((newCalls w (provisionClaimOperation ctrl claim w).world).filter Call.isDealloc).length = 1 ∧
    1 ≤ ((newCalls w (provisionClaimOperation ctrl claim w).world).filter Call.isDealloc).length ∧
    (((newCalls w (provisionClaimOperation ctrl claim w).world).filter Call.isDealloc).length : Int)
      ≤ ctrl.createProvisionedPVRetryCount ∧
    ((newCalls w (provisionClaimOperation ctrl claim w).world).filter
      Call.isFailedDealloc).length = 0 ∧
    (newCalls w (provisionClaimOperation ctrl claim w).world).any
      (Call.isWarningOn claim "ProvisioningCleanupFailed") = false ∧
    ((newCalls w (provisionClaimOperation ctrl claim w).world).any
        (Call.isWarningOn claim "ProvisioningCleanupFailed") = true ↔
      (((newCalls w (provisionClaimOperation ctrl claim w).world).filter
        Call.isFailedDealloc).length : Int) = ctrl.createProvisionedPVRetryCount) ∧
    (provisionClaimOperation ctrl claim w).world.volumes = w.volumes ∧
    ((∀ v ∈ w.volumes, v.ObjectMeta.Name ≠ "pvc-" ++ claim.ObjectMeta.UID) →
      ∀ v ∈ (provisionClaimOperation ctrl claim w).world.volumes,
        v.ObjectMeta.Name ≠ "pvc-" ++ claim.ObjectMeta.UID) := by
  have hfst := Get_fst w (getProvisionedVolumeNameForClaim ctrl claim)
  have hrun := provisionClaimOperation_reach ctrl claim w e ref sc server path hget href hclass
    halloc
  have hcv := createVolume_world ctrl (getProvisionedVolumeNameForClaim ctrl claim)
    (PersistentVolumes.Get w (getProvisionedVolumeNameForClaim ctrl claim)).1
  have hfail2 : ∀ i, i < ctrl.createProvisionedPVRetryCount.toNat →
      createSucceeds
        (createVolume ctrl (getProvisionedVolumeNameForClaim ctrl claim)
          (PersistentVolumes.Get w (getProvisionedVolumeNameForClaim ctrl claim)).1).1
        (annotateVolume ctrl (getClaimClass claim) ref
          (provisionedVolume
            (volumeOptions claim (getProvisionedVolumeNameForClaim ctrl claim) sc) server path))
        i = false := by
    intro i hi
    rw [createSucceeds_congr w _ _ i (by rw [hcv.2.2.1, hfst]) (by rw [hcv.2.1, hfst])]
    exact createSucceeds_rejected w _ i (hfail i hi)
  obtain ⟨hp, hv, l, err, hl1, hl2, hl3⟩ := saveVolume_rejected ctrl claim
    (annotateVolume ctrl (getClaimClass claim) ref
      (provisionedVolume
        (volumeOptions claim (getProvisionedVolumeNameForClaim ctrl claim) sc) server path))
    (createVolume ctrl (getProvisionedVolumeNameForClaim ctrl claim)
      (PersistentVolumes.Get w (getProvisionedVolumeNameForClaim ctrl claim)).1).1 hN hfail2
  rw [← hrun] at hp hv hl1
  rw [hcv.1, hfst] at hl1
  rw [hcv.2.1, hfst] at hv
  simp only at hl1 hv
  generalize hV : annotateVolume ctrl (getClaimClass claim) ref
      (provisionedVolume
        (volumeOptions claim (getProvisionedVolumeNameForClaim ctrl claim) sc) server path) = V
    at hl1 hl2 ⊢
  generalize hM : Message.sprintf
      "Error creating provisioned PV object for claim %s: %v. Deleting the volume."
      [claimToClaimKey claim, err] = M at hl1
  have hcalls : newCalls w (provisionClaimOperation ctrl claim w).world
      = (Call.storeGet (getProvisionedVolumeNameForClaim ctrl claim) :: (execCalls ctrl ++ l)) ++
        [Call.event (Subject.claim claim) EventTypeWarning "ProvisioningFailed" M,
          Call.dealloc V none] := by
    apply newCalls_of_log
    rw [hl1]
    simp
  have hpre : ∀ c ∈ Call.storeGet (getProvisionedVolumeNameForClaim ctrl claim) ::
      (execCalls ctrl ++ l),
      c.isEvent = false ∧ c.isDealloc = false ∧ c.isFailedDealloc = false ∧
      Call.isWarningOn claim "ProvisioningCleanupFailed" c = false := by
    intro c hc
    simp only [List.mem_cons, List.mem_append] at hc
    rcases hc with hc | hc | hc
    · subst hc
      exact ⟨rfl, rfl, rfl, rfl⟩
    · rw [execCalls_mem ctrl c hc]
      exact ⟨rfl, rfl, rfl, rfl⟩
    · rcases hl2 c hc with h | h <;> subst h <;> exact ⟨rfl, rfl, rfl, rfl⟩
  have hcount : (List.filter Call.isCreate
      (Call.storeGet (getProvisionedVolumeNameForClaim ctrl claim) :: (execCalls ctrl ++ l))).length
        = ctrl.createProvisionedPVRetryCount.toNat := by
    have hex : List.filter Call.isCreate (execCalls ctrl) = [] := by
      rw [List.filter_eq_nil_iff]
      intro c hc
      rw [execCalls_mem ctrl c hc]
      simp [Call.isCreate]
    rw [List.filter_cons_of_neg (by simp [Call.isCreate]), List.filter_append, hex, List.nil_append,
      hl3]
  have hdealloc : List.filter Call.isDealloc
      (newCalls w (provisionClaimOperation ctrl claim w).world) = [Call.dealloc V none] := by
    have h0 : List.filter Call.isDealloc
        (Call.storeGet (getProvisionedVolumeNameForClaim ctrl claim) :: (execCalls ctrl ++ l)) = [] := by
      rw [List.filter_eq_nil_iff]
      intro c hc
      simp [(hpre c hc).2.1]
    rw [hcalls, List.filter_append, h0]
    simp [List.filter_cons, Call.isDealloc, Call.isEvent]
  have hfailed : List.filter Call.isFailedDealloc
      (newCalls w (provisionClaimOperation ctrl claim w).world) = [] := by
    rw [List.filter_eq_nil_iff]
    intro c hc
    rw [hcalls] at hc
    simp only [List.mem_append, List.mem_cons, List.mem_singleton, List.not_mem_nil, or_false] at hc
    rcases hc with hc | hc | hc
    · simp [(hpre c (by simpa using hc)).2.2.1]
    · subst hc; simp [Call.isFailedDealloc]
    · subst hc; simp [Call.isFailedDealloc]
  have hcleanup : (newCalls w (provisionClaimOperation ctrl claim w).world).any
      (Call.isWarningOn claim "ProvisioningCleanupFailed") = false := by
    rw [List.any_eq_false]
    intro c hc
    rw [hcalls] at hc
    simp only [List.mem_append, List.mem_cons, List.mem_singleton, List.not_mem_nil, or_false] at hc
    rcases hc with hc | hc | hc
    · simp [(hpre c (by simpa using hc)).2.2.2]
    · subst hc; simp [Call.isWarningOn]
    · subst hc; simp [Call.isWarningOn]
  refine ⟨hp, ⟨_, M, hcalls, fun c hc => ⟨(hpre c hc).1, (hpre c hc).2.1⟩, ?_⟩, ?_, ?_, ?_, ?_,
    hcleanup, ?_, hv, ?_⟩
  · rw [hcount]
    omega
  · rw [hdealloc]
    rfl
  · rw [hdealloc]
    simp
  · rw [hdealloc]
    simp
    omega
  · rw [hfailed]
    rfl
  · rw [hcleanup, hfailed]
    simp
    omega
  · intro hstore
    rw [hv]
    exact hstore

/-- C5, amended, at the claim `ns/pvc1`: with an empty store that fails five
calls of `Create` the run makes one deallocation and leaves the store empty;
with a store that holds `pvc-u1` and fails the lookup the run makes one
deallocation and leaves the record `pvc-u1` where it was. -/
theorem provisionClaimOperation_save_fails_witness :
    (((newCalls
        { exampleWorld [{ stdout := "10.0.0.1:3260 iqn.2016-04.test:vol\n", err := none }] with
          createFaults := List.replicate 5 (some "etcd unavailable") }
        (provisionClaimOperation exampleController exampleClaim
          { exampleWorld [{ stdout := "10.0.0.1:3260 iqn.2016-04.test:vol\n", err := none }] with
            createFaults := List.replicate 5 (some "etcd unavailable") }).world).filter
        Call.isDealloc).length = 1 ∧
      (provisionClaimOperation exampleController exampleClaim
        { exampleWorld [{ stdout := "10.0.0.1:3260 iqn.2016-04.test:vol\n", err := none }] with
          createFaults := List.replicate 5 (some "etcd unavailable") }).world.volumes = []) ∧
    (((newCalls exampleUnreachableStore
        (provisionClaimOperation exampleController exampleClaim
          exampleUnreachableStore).world).filter Call.isDealloc).length = 1 ∧
      (provisionClaimOperation exampleController exampleClaim exampleUnreachableStore).world.volumes
        = exampleUnreachableStore.volumes) :=
  have h := provisionClaimOperation_save_fails exampleController exampleClaim
    { exampleWorld [{ stdout := "10.0.0.1:3260 iqn.2016-04.test:vol\n", err := none }] with
      createFaults := List.replicate 5 (some "etcd unavailable") }
    { Name := "fast", Provisioner := "iscsi" }
    { Kind := "PersistentVolumeClaim", Namespace := "ns", Name := "pvc1", UID := "u1",
      APIVersion := "v1" }
    "10.0.0.1:3260" "iqn.2016-04.test:vol" "not found"
    (by decide) rfl rfl (by decide) (by decide)
    (by
      intro i hi
      have hi5 : i < 5 := hi
      interval_cases i <;> exact Or.inl ⟨_, rfl⟩)
  have h2 := provisionClaimOperation_save_fails exampleController exampleClaim
    exampleUnreachableStore
    { Name := "fast", Provisioner := "iscsi" }
    { Kind := "PersistentVolumeClaim", Namespace := "ns", Name := "pvc1", UID := "u1",
      APIVersion := "v1" }
    "10.0.0.1:3260" "iqn.2016-04.test:vol" "connection refused"
    (by decide) rfl rfl (by decide) (by decide)
    (fun _ _ => Or.inr ⟨_, List.mem_singleton.mpr rfl, rfl⟩)
  ⟨⟨h.2.2.1, h.2.2.2.2.2.2.2.2.1⟩, ⟨h2.2.2.1, h2.2.2.2.2.2.2.2.2.1⟩⟩
end Iscsi
